import Mathlib

/-
Verification of the condition/deferred-value engine of the rule-reactor
repository (a Django business-rule engine).  The Lean definitions below are a
shallow embedding of the Python sources:

  * rules/core.py      — ConditionNode (boolean AND/OR tree), Condition
                         (comparison leaf), ConditionTree (flat-record builder)
  * rules/deferred.py  — DeferredValue / Selector / Function lazy values
  * rules/formatter.py — text serialization of a condition tree
  * rules/parser.py    — recursive-descent parsing of the text format

Python's dynamic features are modelled explicitly: machine behaviour that
depends on name resolution (several methods reference names that are bound
neither locally nor at module level, which raises `NameError` at run time) is
embedded through explicit scope lists that mirror the names actually bound in
the corresponding Python scopes, and exceptions are modelled with `Except`.
-/

namespace RuleReactor

/-- Python exceptions that the embedded code can raise. -/
inductive PyErr where
  | nameError (n : String)
  | keyError (k : String)
  | indexError
  | attributeError (a : String)
  | typeError (msg : String)
  | valueError (msg : String)
  | notImplementedError (msg : String)
  | chainError (inner : PyErr)
  | externalCall (what : String)
  deriving DecidableEq, Repr

/-- The two connectors of rules/core.py (`AND = 'AND'`, `OR = 'OR'`). -/
inductive Conn where
  | AND
  | OR
  deriving DecidableEq, Repr

/-- `ConditionNode.default = AND` (class attribute, rules/core.py line 11). -/
def ConnDefault : Conn := Conn.AND

/-- The dual connector, as computed by the first line of
`ConditionNode.negate`: `connector = AND if self.connector == OR else OR`. -/
def Conn.dualOf : Conn → Conn
  | Conn.AND => Conn.OR
  | Conn.OR => Conn.AND

/-! ## Python name resolution for rules/core.py

`ConditionNode._evaluate` (line 27) iterates the bare name `children`, and
`ConditionNode.negate` (line 35) reads the bare name `default`.  Python
resolves such a name in the local scope, then the module's global scope, then
builtins.  The lists below are transcribed from rules/core.py: the module's
top-level bindings, and the local bindings of each method body.  Neither
`children` nor `default` appears in any of them (nor is either a Python
builtin), so both references raise `NameError` at run time. -/

/-- Names bound at module level in rules/core.py: the imports `copy`, `re`,
`tree`, `ContentType` and the definitions `AND`, `OR`, `ConditionNode`,
`get_value`, `Condition`, `ConditionTree`. -/
def coreModuleGlobals : List String :=
  ["copy", "re", "tree", "ContentType",
   "AND", "OR", "ConditionNode", "get_value", "Condition", "ConditionTree"]

/-- Local names of `ConditionNode._evaluate(self, objects, extra)`:
the parameters plus the assigned variable `test`. -/
def evaluateLocalNames : List String := ["self", "objects", "extra", "test"]

/-- Local names of `ConditionNode.negate(self)`: the parameter plus the
assigned variables `connector` and the loop variable `c`. -/
def negateLocalNames : List String := ["self", "connector", "c"]

/-- Whether a bare name resolves in the given local scope or in the
rules/core.py module scope (no relevant builtin exists for the names we
check). -/
def resolvesInCore (locals : List String) (n : String) : Bool :=
  locals.contains n || coreModuleGlobals.contains n

/-! ## ConditionNode trees (rules/core.py)

A `ConditionNode` combines child evaluables under one connector.  Children are
polymorphic: anything exposing `_evaluate`/`negate` (the repository's test
suite uses `Dummy` doubles whose `_evaluate` returns a stored boolean and
whose `negate` flips it).  We model a child as either such a boolean leaf or a
nested node. -/

inductive TreeNode where
  | leaf (val : Bool)
  | node (connector : Conn) (children : List TreeNode)

mutual

/-- The boolean a tree WOULD evaluate to under the semantics the body of
`ConditionNode._evaluate` spells out (`test = all if self.connector == AND
else any`, applied to the children's `_evaluate` results): this is the
intended meaning, used below to describe what the buggy method would return
were the generator's iterable name actually bound. -/
def evalIntended : TreeNode → Bool
  | TreeNode.leaf v => v
  | TreeNode.node Conn.AND cs => evalIntendedAll cs
  | TreeNode.node Conn.OR cs => evalIntendedAny cs

/-- `all(child._evaluate(...) for child in <children>)`. -/
def evalIntendedAll : List TreeNode → Bool
  | [] => true
  | t :: ts => evalIntended t && evalIntendedAll ts

/-- `any(child._evaluate(...) for child in <children>)`. -/
def evalIntendedAny : List TreeNode → Bool
  | [] => false
  | t :: ts => evalIntended t || evalIntendedAny ts

end

/-- `ConditionNode._evaluate(self, objects, extra)` (rules/core.py lines
25-27):

    test = all if self.connector == AND else any
    return test(child._evaluate(objects, extra) for child in children)

Creating the generator evaluates its outermost iterable, the bare name
`children`.  That name is not among the method's locals and not a module
global of rules/core.py (see `evaluateLocalNames` / `coreModuleGlobals`), so
Python raises `NameError` before any child is visited, whatever the node and
whatever the evaluation input.  The evaluation input (objects, extra) plays no
role before the failure point and is therefore not a parameter here. -/
def ConditionNode.evaluateImpl (t : TreeNode) : Except PyErr Bool :=
  if resolvesInCore evaluateLocalNames "children" then
    Except.ok (evalIntended t)
  else
    Except.error (PyErr.nameError "children")

mutual

/-- `ConditionNode.negate` (rules/core.py lines 29-35):

    connector = AND if self.connector == OR else OR
    for c in self.children:
        c.negate()
    self.children = [self._new_instance(self.children, connector)]
    self.connector = default

Executed top down: the dual connector is computed, every child is negated in
place (a leaf double's `negate` flips its boolean; a nested node recurses into
this very method), the (now negated) children are wrapped in one new node
carrying the DUAL connector, and finally the bare name `default` is read.
`default` is a class attribute, which Python does not place in the method's
scope; it is neither local (`negateLocalNames`) nor a module global, so the
final assignment raises `NameError` — after `self.children` has already been
replaced, leaving `self.connector` unchanged.  The function returns the
post-mutation tree together with the outcome. -/
def ConditionNode.negateImpl : TreeNode → TreeNode × Except PyErr Unit
  | TreeNode.leaf v => (TreeNode.leaf (!v), Except.ok ())
  | TreeNode.node conn cs =>
    match negateChildrenImpl cs with
    | (cs', Except.error e) => (TreeNode.node conn cs', Except.error e)
    | (cs', Except.ok ()) =>
      let wrapped := TreeNode.node conn [TreeNode.node (Conn.dualOf conn) cs']
      if resolvesInCore negateLocalNames "default" then
        (TreeNode.node ConnDefault [TreeNode.node (Conn.dualOf conn) cs'],
         Except.ok ())
      else
        (wrapped, Except.error (PyErr.nameError "default"))

/-- The loop `for c in self.children: c.negate()`: children are negated left
to right; an exception from one child aborts the loop, leaving the later
children untouched. -/
def negateChildrenImpl : List TreeNode → List TreeNode × Except PyErr Unit
  | [] => ([], Except.ok ())
  | t :: ts =>
    match ConditionNode.negateImpl t with
    | (t', Except.error e) => (t' :: ts, Except.error e)
    | (t', Except.ok ()) =>
      match negateChildrenImpl ts with
      | (ts', r) => (t' :: ts', r)

end

/-! ## Memoized deferred-value resolution (rules/deferred.py lines 35-40)

`DeferredValue.get_value(self, info)`:

    try:
        return info[id(self)]
    except KeyError:
        result = info[id(self)] = self._get_value(info)
        return result

The evaluation context `info` is a dict also used as a cache keyed by the
node's identity.  We model the node as an identity token plus an arbitrary
`_get_value` state transformer (which may itself read and extend the context,
as nested deferred values do), and the context as an association list. -/

/-- Association-list lookup: first binding of the key wins (Python dict
lookup). -/
def memoLookup {α : Type} (info : List (Nat × α)) (k : Nat) : Option α :=
  match info with
  | [] => Option.none
  | (k', v) :: rest => if k' = k then Option.some v else memoLookup rest k

/-- Python dict assignment `info[k] = v`: the binding for `k` is replaced (or
added). -/
def memoStore {α : Type} (info : List (Nat × α)) (k : Nat) (v : α) :
    List (Nat × α) :=
  match info with
  | [] => [(k, v)]
  | (k', v') :: rest =>
    if k' = k then (k, v) :: rest else (k', v') :: memoStore rest k v

/-- A deferred value: its Python identity `id(self)` and its `_get_value`
computation, which receives the context and returns a value together with the
(possibly extended) context, or raises. -/
structure DeferredNode (α : Type) where
  ident : Nat
  rawGetValue : List (Nat × α) → Except PyErr (α × List (Nat × α))

/-- `DeferredValue.get_value`: consult the cache under `id(self)`; on a hit
return the stored value without touching `_get_value`; on a miss run
`_get_value` and store its result under `id(self)` (a `KeyError` from the
initial subscript is exactly the cache-miss case; exceptions from
`_get_value` propagate and nothing is stored). -/
def DeferredNode.getValue {α : Type} (d : DeferredNode α)
    (info : List (Nat × α)) : Except PyErr (α × List (Nat × α)) :=
  match memoLookup info d.ident with
  | Option.some v => Except.ok (v, info)
  | Option.none =>
    match d.rawGetValue info with
    | Except.ok (v, info2) => Except.ok (v, memoStore info2 d.ident v)
    | Except.error e => Except.error e

/-- Concrete deferred node for exercising `DeferredNode.getValue`: identity
token 0, `_get_value` computes 42 without touching the context. -/
def sampleDeferredNode : DeferredNode Nat :=
  { ident := 0, rawGetValue := fun info => Except.ok (42, info) }

/-! ## A universe of Python values

The engine manipulates a mix of plain Python values (None, booleans, ints,
floats, strings, lists/tuples, dicts, arbitrary attribute-bearing objects,
compiled regexes) and the library's own deferred values (DeferredList,
DeferredDict, Selector, Function).  The inductive below covers the values the
embedded code paths touch.  Modelling notes:

  * Python lists and tuples are conflated into `plist`: every embedded branch
    tests `isinstance(x, (list, tuple))`, never one alone.
  * Floats are carried by their literal text (`floatLit`); no claim depends
    on float arithmetic.
  * Dict keys are strings (the dicts the engine builds and walks are
    string-keyed).
  * A `Selector` stores its raw `stype`, its (possibly constant-folded)
    `chain`, and the resolution kind its `set_first` computed for the `first`
    closure; a `Function` stores its registry name and its argument pack.
  * `modelClass` stands for the type handle a successful `model:` lookup
    would return from the external ContentType registry. -/

mutual

inductive PyVal where
  | none
  | bool (b : Bool)
  | int (n : Int)
  | floatLit (s : String)
  | str (s : String)
  | plist (xs : List PyVal)
  | pdict (xs : List (String × PyVal))
  | obj (attrs : List (String × PyVal))
  | regex (pat : String)
  | modelClass (name : String)
  | dlist (xs : List PyVal)
  | ddict (xs : List (String × PyVal))
  | sel (stype : PyVal) (chain : PyVal) (firstK : FirstKind)
  | func (name : String) (args : PyVal)

/-- The resolution behaviour `Selector.set_first` installs as the `first`
closure (rules/deferred.py lines 102-121), one variant per branch. -/
inductive FirstKind where
  | fromDeferred
  | objIdx (n : Int)
  | extraKey
  | constVal (v : PyVal)
  | modelRef (name : String)

end

mutual

/-- Structural equality on the value universe (Python `==` for these types;
`Selector.__eq__` and `Function.__eq__` are structural over stype/chain and
func/args respectively, rules/deferred.py lines 159-168 and 209-218). -/
def pyValBeq : PyVal → PyVal → Bool
  | PyVal.none, PyVal.none => true
  | PyVal.bool a, PyVal.bool b => a == b
  | PyVal.int a, PyVal.int b => a == b
  | PyVal.floatLit a, PyVal.floatLit b => a == b
  | PyVal.str a, PyVal.str b => a == b
  | PyVal.plist a, PyVal.plist b => pyValListBeq a b
  | PyVal.pdict a, PyVal.pdict b => pyValPairsBeq a b
  | PyVal.obj a, PyVal.obj b => pyValPairsBeq a b
  | PyVal.regex a, PyVal.regex b => a == b
  | PyVal.modelClass a, PyVal.modelClass b => a == b
  | PyVal.dlist a, PyVal.dlist b => pyValListBeq a b
  | PyVal.ddict a, PyVal.ddict b => pyValPairsBeq a b
  | PyVal.sel s1 c1 _, PyVal.sel s2 c2 _ => pyValBeq s1 s2 && pyValBeq c1 c2
  | PyVal.func n1 a1, PyVal.func n2 a2 => n1 == n2 && pyValBeq a1 a2
  | _, _ => false

def pyValListBeq : List PyVal → List PyVal → Bool
  | [], [] => true
  | x :: xs, y :: ys => pyValBeq x y && pyValListBeq xs ys
  | _, _ => false

def pyValPairsBeq : List (String × PyVal) → List (String × PyVal) → Bool
  | [], [] => true
  | (k1, v1) :: xs, (k2, v2) :: ys =>
    k1 == k2 && pyValBeq v1 v2 && pyValPairsBeq xs ys
  | _, _ => false

end

/-- `isinstance(x, DeferredValue)`: the four deferred classes of
rules/deferred.py. -/
def isDeferredValue : PyVal → Bool
  | PyVal.dlist _ => true
  | PyVal.ddict _ => true
  | PyVal.sel _ _ _ => true
  | PyVal.func _ _ => true
  | _ => false

/-- `isinstance(x, (list, tuple))` — note `DeferredList` subclasses `list`. -/
def isListOrTuple : PyVal → Bool
  | PyVal.plist _ => true
  | PyVal.dlist _ => true
  | _ => false

/-- The elements of a list/tuple value (empty for non-sequences). -/
def listElems : PyVal → List PyVal
  | PyVal.plist xs => xs
  | PyVal.dlist xs => xs
  | _ => []

/-- Whether a float literal denotes zero: it has at least one digit and all
its digits are `0` (covers `0.0`, `-0.0`, `0e5`, `0.`; `inf`/`nan` have no
digits and are truthy). -/
def floatLitIsZero (s : String) : Bool :=
  s.toList.any Char.isDigit && (s.toList.filter Char.isDigit).all (· = '0')

/-- Python truthiness for the value universe. -/
def pyTruthy : PyVal → Bool
  | PyVal.none => false
  | PyVal.bool b => b
  | PyVal.int n => !(n == 0)
  | PyVal.floatLit s => !(floatLitIsZero s)
  | PyVal.str s => !(s == "")
  | PyVal.plist xs => !xs.isEmpty
  | PyVal.pdict xs => !xs.isEmpty
  | PyVal.obj _ => true
  | PyVal.regex _ => true
  | PyVal.modelClass _ => true
  | PyVal.dlist xs => !xs.isEmpty
  | PyVal.ddict xs => !xs.isEmpty
  | PyVal.sel _ _ _ => true
  | PyVal.func _ _ => true

/-! ## The fixed function registry (rules/deferred.py lines 172-189)

`Function.FUNCS` maps names to Python callables.  The names are transcribed
exactly; the callables are given semantics on the parts of the universe the
engine exercises, and surface as an explicit `externalCall` outside of it
(float arithmetic, rounding, hex formatting) — no claim depends on those. -/

def funcNames : List String :=
  ["len", "list", "dict", "tuple", "set", "percent", "max", "min", "str",
   "sum", "int", "float", "hex", "abs", "round", "regex"]

/-- `len(x)`. -/
def pyLen : PyVal → Except PyErr PyVal
  | PyVal.str s => Except.ok (PyVal.int s.length)
  | PyVal.plist xs => Except.ok (PyVal.int xs.length)
  | PyVal.dlist xs => Except.ok (PyVal.int xs.length)
  | PyVal.pdict xs => Except.ok (PyVal.int xs.length)
  | PyVal.ddict xs => Except.ok (PyVal.int xs.length)
  | _ => Except.error (PyErr.typeError "object has no len")

/-- `sum(iterable)` over integers. -/
def pySumInts : List PyVal → Except PyErr Int
  | [] => Except.ok 0
  | PyVal.int n :: rest => (pySumInts rest).map (n + ·)
  | _ => Except.error (PyErr.externalCall "sum over non-int values")

/-- `min`/`max` over integers (two-or-more positional args or one iterable
are both reduced to a value list before this is consulted). -/
def pyMinMaxInts (isMin : Bool) : List PyVal → Except PyErr PyVal
  | [] => Except.error (PyErr.valueError "empty sequence")
  | [PyVal.int n] => Except.ok (PyVal.int n)
  | PyVal.int n :: rest => do
    let r ← pyMinMaxInts isMin rest
    match r with
    | PyVal.int m => Except.ok (PyVal.int (if isMin then min n m else max n m))
    | _ => Except.error (PyErr.externalCall "min-max over non-int values")
  | _ => Except.error (PyErr.externalCall "min-max over non-int values")

/-- `max`/`min` accept either one iterable or several scalars. -/
def flattenOneIterable (args : List PyVal) : List PyVal :=
  match args with
  | [x] => if isListOrTuple x then listElems x else [x]
  | _ => args

/-- Applying a registry function to already-resolved positional arguments
(`self.func(*args)`). -/
def applyFunc (name : String) (args : List PyVal) : Except PyErr PyVal :=
  if name = "len" then
    match args with
    | [x] => pyLen x
    | _ => Except.error (PyErr.typeError "len takes one argument")
  else if name = "sum" then
    match args with
    | [x] =>
      if isListOrTuple x then (pySumInts (listElems x)).map PyVal.int
      else Except.error (PyErr.typeError "sum argument not iterable")
    | _ => Except.error (PyErr.externalCall "sum with start value")
  else if name = "max" then pyMinMaxInts false (flattenOneIterable args)
  else if name = "min" then pyMinMaxInts true (flattenOneIterable args)
  else if name = "list" then
    match args with
    | [] => Except.ok (PyVal.plist [])
    | [x] =>
      if isListOrTuple x then Except.ok (PyVal.plist (listElems x))
      else Except.error (PyErr.externalCall "list of non-sequence")
    | _ => Except.error (PyErr.typeError "list takes at most one argument")
  else if name = "tuple" then
    match args with
    | [] => Except.ok (PyVal.plist [])
    | [x] =>
      if isListOrTuple x then Except.ok (PyVal.plist (listElems x))
      else Except.error (PyErr.externalCall "tuple of non-sequence")
    | _ => Except.error (PyErr.typeError "tuple takes at most one argument")
  else if name = "abs" then
    match args with
    | [PyVal.int n] => Except.ok (PyVal.int (if n < 0 then -n else n))
    | _ => Except.error (PyErr.externalCall "abs outside integers")
  else if name = "int" then
    match args with
    | [PyVal.int n] => Except.ok (PyVal.int n)
    | [PyVal.bool b] => Except.ok (PyVal.int (if b then 1 else 0))
    | _ => Except.error (PyErr.externalCall "int conversion outside integers")
  else if name = "str" then
    match args with
    | [PyVal.str s] => Except.ok (PyVal.str s)
    | [PyVal.int n] => Except.ok (PyVal.str (toString n))
    | _ => Except.error (PyErr.externalCall "str conversion outside scalars")
  else if name = "regex" then
    match args with
    | [PyVal.str s] => Except.ok (PyVal.regex s)
    | _ => Except.error (PyErr.typeError "re compile expects a pattern string")
  else if funcNames.contains name then
    Except.error (PyErr.externalCall name)
  else
    Except.error (PyErr.keyError name)

/-! ## `maybe_const` (rules/deferred.py)

Constant folding as implemented by `DeferredList.maybe_const`,
`DeferredDict.maybe_const`, `Selector.maybe_const` (lines 123-129) and
`Function.maybe_const` (lines 200-203).  `Function.maybe_const` actually
applies the function, so folding can raise; the result type is `Except`.
On a non-deferred value the source never calls `maybe_const`; the catch-all
returns the value unchanged. -/

/-- `first(None)` for the stype kinds on which `Selector.maybe_const` calls
it (`const` and chainless `model`); the remaining kinds are never consulted
there and yield None. -/
def firstOnNone : FirstKind → PyVal
  | FirstKind.constVal v => v
  | FirstKind.modelRef m => PyVal.modelClass m
  | _ => PyVal.none

/-- Whether `self.stype[0]` equals the given string kind. -/
def stypeHeadIs (stype : PyVal) (k : String) : Bool :=
  match stype with
  | PyVal.plist (PyVal.str s :: _) => s == k
  | PyVal.dlist (PyVal.str s :: _) => s == k
  | _ => false

mutual

def maybeConst : PyVal → Except PyErr PyVal
  | PyVal.dlist xs => do
    match ← maybeConstElems xs with
    | Option.some ys => Except.ok (PyVal.plist ys)
    | Option.none => Except.ok (PyVal.dlist xs)
  | PyVal.ddict xs => do
    match ← maybeConstPairs xs with
    | Option.some ys => Except.ok (PyVal.pdict ys)
    | Option.none => Except.ok (PyVal.ddict xs)
  | PyVal.sel stype chain firstK =>
    if isListOrTuple stype then
      if stypeHeadIs stype "const" ||
          (stypeHeadIs stype "model" && !pyTruthy chain) then
        Except.ok (firstOnNone firstK)
      else
        Except.ok (PyVal.sel stype chain firstK)
    else if isDeferredValue stype && !pyTruthy chain then
      maybeConst stype
    else
      Except.ok (PyVal.sel stype chain firstK)
  | PyVal.func name args =>
    if !isDeferredValue args then applyFunc name (listElems args)
    else Except.ok (PyVal.func name args)
  | v => Except.ok v

/-- The fold of `DeferredList.maybe_const`: `some` of the realized elements
when every element folded to a constant, `none` when a deferred element
remains (the container then stays itself). -/
def maybeConstElems : List PyVal → Except PyErr (Option (List PyVal))
  | [] => Except.ok (Option.some [])
  | x :: xs => do
    let x' ← if isDeferredValue x then maybeConst x else Except.ok x
    if isDeferredValue x' then Except.ok Option.none
    else do
      match ← maybeConstElems xs with
      | Option.some ys => Except.ok (Option.some (x' :: ys))
      | Option.none => Except.ok Option.none

def maybeConstPairs : List (String × PyVal) →
    Except PyErr (Option (List (String × PyVal)))
  | [] => Except.ok (Option.some [])
  | (k, v) :: xs => do
    let v' ← if isDeferredValue v then maybeConst v else Except.ok v
    if isDeferredValue v' then Except.ok Option.none
    else do
      match ← maybeConstPairs xs with
      | Option.some ys => Except.ok (Option.some ((k, v') :: ys))
      | Option.none => Except.ok Option.none

end

/-! ## Selector construction (rules/deferred.py lines 91-121) -/

/-- The external ContentType registry consulted by the `model` branch of
`set_first`.  Resolving a model requires the database; no registered models
are modelled, so every `model:` selector fails construction with the
`ValueError` the source raises when its lookup raises. -/
def validModelNames : List String := []

/-- `Selector.set_first(self, stype, arg=None)`: branches in source order —
deferred stype, integer index (a Python `bool` is an `int` subclass), the
`extra` sentinel, `const` (rejecting a truthy chain), `model` (external
lookup, any failure becomes `ValueError`), otherwise `NotImplementedError`.
Returns the resolution kind installed as the `first` closure. -/
def Selector.setFirst (chainStored : PyVal) (stype : PyVal)
    (arg : Option PyVal) : Except PyErr FirstKind :=
  if isDeferredValue stype then Except.ok FirstKind.fromDeferred
  else
    match stype with
    | PyVal.int n => Except.ok (FirstKind.objIdx n)
    | PyVal.bool b => Except.ok (FirstKind.objIdx (if b then 1 else 0))
    | PyVal.str "extra" => Except.ok FirstKind.extraKey
    | PyVal.str "const" =>
      if pyTruthy chainStored then
        Except.error (PyErr.valueError "Chains are not allowed on const selectors")
      else
        Except.ok (FirstKind.constVal (arg.getD PyVal.none))
    | PyVal.str "model" =>
      match arg with
      | Option.some (PyVal.str m) =>
        if validModelNames.contains m then Except.ok (FirstKind.modelRef m)
        else Except.error (PyErr.valueError "Invalid model for model selector")
      | _ => Except.error (PyErr.valueError "Invalid model for model selector")
    | _ => Except.error (PyErr.notImplementedError "Unknown selector type")

/-- `Selector.__init__(self, selector_type, chain)`: store the raw stype;
store the chain, constant-folding it first when it is itself deferred; then
dispatch to `set_first`, unpacking a list/tuple stype into (stype, arg) —
a tuple of length other than 1 or 2 is a `TypeError` from the `*` unpack. -/
def Selector.init (selectorType : PyVal) (chain : PyVal) :
    Except PyErr PyVal := do
  let chainStored ←
    if isDeferredValue chain then maybeConst chain else Except.ok chain
  let firstK ←
    if isListOrTuple selectorType then
      match listElems selectorType with
      | [x] => Selector.setFirst chainStored x Option.none
      | [x, a] => Selector.setFirst chainStored x (Option.some a)
      | _ => Except.error (PyErr.typeError "set_first argument count")
    else
      Selector.setFirst chainStored selectorType Option.none
  Except.ok (PyVal.sel selectorType chainStored firstK)

/-- The stored chain of a constructed Selector value. -/
def selChainOf : PyVal → PyVal
  | PyVal.sel _ c _ => c
  | _ => PyVal.none

/-! ## Selector resolution (rules/deferred.py lines 131-157)

`Selector._get_value` resolves the root through the `first` closure and then
runs `for getter in chain: ...`.  The loop iterates the bare name `chain`:
the method's locals are `self`, `info`, `obj`, `getter`, `args`, and the
module globals of rules/deferred.py are listed below — `chain` is in neither
(`self.chain` is an attribute, not a name), so the reference raises
`NameError`, which the trailing `except Exception as ex: raise
ChainError(ex)` converts into a `ChainError` wrapping it. -/

/-- Names bound at module level in rules/deferred.py: the imports `abc`,
`re`, `six`, `ContentType` and the definitions of the module (plus
`__all__`, which no lookup ever targets). -/
def deferredModuleGlobals : List String :=
  ["abc", "re", "six", "ContentType",
   "DeferredValue", "DeferredDict", "DeferredList", "ChainError",
   "Selector", "Function"]

/-- Local names of `Selector._get_value(self, info)`: the parameters plus
the assigned variables `obj`, `getter`, `args`. -/
def selGetValueLocalNames : List String :=
  ["self", "info", "obj", "getter", "args"]

/-- Name resolution inside rules/deferred.py. -/
def resolvesInDeferred (locals : List String) (n : String) : Bool :=
  locals.contains n || deferredModuleGlobals.contains n

/-- The evaluation context dict: the `objects` and `extra` entries (absent
field = missing key) plus the identity-keyed memo entries of
`DeferredValue.get_value`.  Python keys memo entries by `id(self)`; deferred
values here have no object identity, so the memo is keyed by the value
itself — faithful for the executed paths, where distinct live nodes are
structurally distinct. -/
structure EvalInfo where
  objects : Option (List PyVal)
  extra : Option PyVal
  cache : List (PyVal × PyVal)

/-- Memo lookup keyed by structural equality. -/
def cacheFind : List (PyVal × PyVal) → PyVal → Option PyVal
  | [], _ => Option.none
  | (k, v) :: rest, key =>
    if pyValBeq k key then Option.some v else cacheFind rest key

/-- Memo store (`info[id(self)] = result`). -/
def cacheAdd : List (PyVal × PyVal) → PyVal → PyVal → List (PyVal × PyVal)
  | [], key, v => [(key, v)]
  | (k, v') :: rest, key, v =>
    if pyValBeq k key then (k, v) :: rest else (k, v') :: cacheAdd rest key v

/-- Python sequence indexing: negative indices count from the end; out of
range raises `IndexError`. -/
def pyIndexList (xs : List PyVal) (n : Int) : Except PyErr PyVal :=
  let i : Int := if n < 0 then n + xs.length else n
  if 0 ≤ i ∧ i < xs.length then
    match xs.get? i.toNat with
    | Option.some v => Except.ok v
    | Option.none => Except.error PyErr.indexError
  else
    Except.error PyErr.indexError

/-- `obj[getter]`: dict lookup (`KeyError` on a missing key), sequence
indexing (`IndexError` out of range, `TypeError` for a non-int index),
`TypeError` for unsubscriptable values. -/
def pySubscript (obj getter : PyVal) : Except PyErr PyVal :=
  match obj with
  | PyVal.pdict xs =>
    match getter with
    | PyVal.str k =>
      match xs.find? (fun p => p.1 == k) with
      | Option.some p => Except.ok p.2
      | Option.none => Except.error (PyErr.keyError k)
    | _ => Except.error (PyErr.keyError "non-string key")
  | PyVal.ddict xs =>
    match getter with
    | PyVal.str k =>
      match xs.find? (fun p => p.1 == k) with
      | Option.some p => Except.ok p.2
      | Option.none => Except.error (PyErr.keyError k)
    | _ => Except.error (PyErr.keyError "non-string key")
  | PyVal.plist xs =>
    match getter with
    | PyVal.int n => pyIndexList xs n
    | _ => Except.error (PyErr.typeError "sequence index must be an integer")
  | PyVal.dlist xs =>
    match getter with
    | PyVal.int n => pyIndexList xs n
    | _ => Except.error (PyErr.typeError "sequence index must be an integer")
  | PyVal.str s =>
    match getter with
    | PyVal.int n =>
      (pyIndexList (s.toList.map (fun c => PyVal.str (String.mk [c]))) n)
    | _ => Except.error (PyErr.typeError "sequence index must be an integer")
  | _ => Except.error (PyErr.typeError "object is not subscriptable")

/-- `getattr(obj, getter)` with no default: `TypeError` for a non-string
attribute name, the attribute for attribute-bearing stand-ins, otherwise
`AttributeError`. -/
def pyGetattrStrict (obj getter : PyVal) : Except PyErr PyVal :=
  match getter with
  | PyVal.str a =>
    match obj with
    | PyVal.obj attrs =>
      match attrs.find? (fun p => p.1 == a) with
      | Option.some p => Except.ok p.2
      | Option.none => Except.error (PyErr.attributeError a)
    | _ => Except.error (PyErr.attributeError a)
  | _ => Except.error (PyErr.typeError "attribute name must be string")

/-- `for getter in <chain>` needs an iterable; Selector chains are lists,
tuples or None in practice. -/
def chainIterable : PyVal → Except PyErr (List PyVal)
  | PyVal.plist xs => Except.ok xs
  | PyVal.dlist xs => Except.ok xs
  | _ => Except.error (PyErr.typeError "object is not iterable")

mutual

/-- `DeferredValue.get_value(self, info)` over the value universe: a plain
value has no `get_value` attribute (`AttributeError`); a deferred value
consults the memo and otherwise delegates to the class's `_get_value`,
storing the result (rules/deferred.py lines 35-40).  `fuel` bounds the
recursion depth (Python's own recursion limit); every function of this
cluster consumes one unit on entry so the recursion is structural. -/
def getValueD : Nat → PyVal → EvalInfo → Except PyErr (PyVal × EvalInfo)
  | 0, _, _ => Except.error (PyErr.externalCall "recursion limit")
  | Nat.succ fuel, v, info =>
    if !isDeferredValue v then Except.error (PyErr.attributeError "get_value")
    else
      match cacheFind info.cache v with
      | Option.some r => Except.ok (r, info)
      | Option.none =>
        match rawGetValueD fuel v info with
        | Except.ok (r, info2) =>
          Except.ok (r, { info2 with cache := cacheAdd info2.cache v r })
        | Except.error e => Except.error e

/-- Dispatch of `_get_value` per deferred class. -/
def rawGetValueD : Nat → PyVal → EvalInfo → Except PyErr (PyVal × EvalInfo)
  | 0, _, _ => Except.error (PyErr.externalCall "recursion limit")
  | Nat.succ fuel, v, info =>
    match v with
    | PyVal.dlist xs =>
      match resolveElemsD fuel xs info with
      | Except.ok (ys, info') => Except.ok (PyVal.plist ys, info')
      | Except.error e => Except.error e
    | PyVal.ddict xs =>
      match resolvePairsD fuel xs info with
      | Except.ok (ys, info') => Except.ok (PyVal.pdict ys, info')
      | Except.error e => Except.error e
    | PyVal.sel stype chain firstK =>
      selGetValueBody fuel stype chain firstK info
    | PyVal.func name args =>
      -- Function._get_value: args = self.args.get_value(info), then
      -- self.func(*args) (a plain argument pack has no get_value attribute)
      if isDeferredValue args then
        match getValueD fuel args info with
        | Except.ok (av, info') =>
          match applyFunc name (listElems av) with
          | Except.ok r => Except.ok (r, info')
          | Except.error e => Except.error e
        | Except.error e => Except.error e
      else
        Except.error (PyErr.attributeError "get_value")
    | _ => Except.error (PyErr.attributeError "get_value")

/-- `DeferredList._get_value`: resolve the deferred elements, keep the
others. -/
def resolveElemsD : Nat → List PyVal → EvalInfo →
    Except PyErr (List PyVal × EvalInfo)
  | 0, _, _ => Except.error (PyErr.externalCall "recursion limit")
  | Nat.succ _, [], info => Except.ok ([], info)
  | Nat.succ fuel, x :: xs, info =>
    match
      (if isDeferredValue x then getValueD fuel x info
       else Except.ok (x, info)) with
    | Except.ok (x', info') =>
      match resolveElemsD fuel xs info' with
      | Except.ok (xs', info'') => Except.ok (x' :: xs', info'')
      | Except.error e => Except.error e
    | Except.error e => Except.error e

/-- `DeferredDict._get_value`. -/
def resolvePairsD : Nat → List (String × PyVal) → EvalInfo →
    Except PyErr (List (String × PyVal) × EvalInfo)
  | 0, _, _ => Except.error (PyErr.externalCall "recursion limit")
  | Nat.succ _, [], info => Except.ok ([], info)
  | Nat.succ fuel, (k, v) :: xs, info =>
    match
      (if isDeferredValue v then getValueD fuel v info
       else Except.ok (v, info)) with
    | Except.ok (v', info') =>
      match resolvePairsD fuel xs info' with
      | Except.ok (xs', info'') => Except.ok ((k, v') :: xs', info'')
      | Except.error e => Except.error e
    | Except.error e => Except.error e

/-- The `first` closure installed by `set_first`, applied to the context. -/
def evalFirstD : Nat → PyVal → FirstKind → EvalInfo →
    Except PyErr (PyVal × EvalInfo)
  | 0, _, _, _ => Except.error (PyErr.externalCall "recursion limit")
  | Nat.succ fuel, stype, firstK, info =>
    match firstK with
    | FirstKind.fromDeferred => getValueD fuel stype info
    | FirstKind.objIdx n =>
      match info.objects with
      | Option.none => Except.error (PyErr.keyError "objects")
      | Option.some xs =>
        match pyIndexList xs n with
        | Except.ok v => Except.ok (v, info)
        | Except.error e => Except.error e
    | FirstKind.extraKey =>
      match info.extra with
      | Option.none => Except.error (PyErr.keyError "extra")
      | Option.some v => Except.ok (v, info)
    | FirstKind.constVal v => Except.ok (v, info)
    | FirstKind.modelRef m => Except.ok (PyVal.modelClass m, info)

/-- `Selector._get_value` (rules/deferred.py lines 131-157): resolve the
root via `first`, then run the accessor loop — whose header reads the
unbound name `chain` and therefore raises `NameError` — and convert any
non-`ChainError` exception of the body into a `ChainError` wrapping it. -/
def selGetValueBody : Nat → PyVal → PyVal → FirstKind → EvalInfo →
    Except PyErr (PyVal × EvalInfo)
  | 0, _, _, _, _ => Except.error (PyErr.externalCall "recursion limit")
  | Nat.succ fuel, stype, chain, firstK, info =>
    let body :=
      match evalFirstD fuel stype firstK info with
      | Except.error e => Except.error e
      | Except.ok (obj, info') =>
        if resolvesInDeferred selGetValueLocalNames "chain" then
          match chainIterable chain with
          | Except.error e => Except.error e
          | Except.ok items => chainWalkD fuel items obj info'
        else
          Except.error (PyErr.nameError "chain")
    match body with
    | Except.ok r => Except.ok r
    | Except.error (PyErr.chainError e) => Except.error (PyErr.chainError e)
    | Except.error e => Except.error (PyErr.chainError e)

/-- The accessor loop of `Selector._get_value`: unpack a paired accessor
(resolving deferred call arguments), subscript with fallback to attribute
access on `KeyError`/`TypeError` (other exceptions propagate), and invoke
callables — no value of this universe is callable, so the invocation branch
never fires. -/
def chainWalkD : Nat → List PyVal → PyVal → EvalInfo →
    Except PyErr (PyVal × EvalInfo)
  | 0, _, _, _ => Except.error (PyErr.externalCall "recursion limit")
  | Nat.succ _, [], obj, info => Except.ok (obj, info)
  | Nat.succ fuel, getter :: rest, obj, info =>
    match
      (if isListOrTuple getter then
        match listElems getter with
        | [g, a] =>
          if isDeferredValue a then
            match getValueD fuel a info with
            | Except.ok (av, i') => Except.ok (g, av, i')
            | Except.error e => Except.error e
          else
            Except.ok (g, a, info)
        | _ => Except.error (PyErr.valueError "unpacking an accessor pair")
      else
        Except.ok (getter, PyVal.plist [], info)) with
    | Except.error e => Except.error e
    | Except.ok (getter', _args, info') =>
      match
        (match pySubscript obj getter' with
         | Except.ok v => Except.ok v
         | Except.error (PyErr.keyError _) => pyGetattrStrict obj getter'
         | Except.error (PyErr.typeError _) => pyGetattrStrict obj getter'
         | Except.error e => Except.error e) with
      | Except.error e => Except.error e
      | Except.ok obj' => chainWalkD fuel rest obj' info'

end

/-- `get_value` as called by condition evaluation: a fresh context holding
the positional objects and the extra mapping, with ample recursion fuel;
returns the resolved value. -/
def Selector.getValue (s : PyVal) (objects : Option (List PyVal))
    (extra : Option PyVal) : Except PyErr PyVal :=
  (getValueD 1000 s { objects := objects, extra := extra, cache := [] }).map
    Prod.fst

/-! ## Condition leaves (rules/core.py lines 89-258)

The `Condition` class of the revision in src stores selectors as
dot-separated strings (`left`/`right`), resolves them against the positional
objects and the `extra` mapping, and compares with a string-keyed operator
dispatch.  `__init__` normalizes a negated operator token to its positive
counterpart plus the `negated` flag. -/

/-- `Condition.NEGATED_OPERATOR_MAP` (rules/core.py lines 90-97). -/
def NEGATED_OPERATOR_MAP : List (String × String) :=
  [("!=", "=="), ("not like", "re"), (">", "<="), (">=", "<"),
   ("does not exist", "bool"), ("not in", "in")]

/-- `Condition.OPERATOR_MAP` (lines 98-106): the positive entries updated
with the negated ones (all keys distinct, so the dict update is
concatenation). -/
def OPERATOR_MAP : List (String × String) :=
  [("==", "=="), ("like", "re"), ("exists", "bool"), ("<=", "<="),
   ("<", "<"), ("in", "in")] ++ NEGATED_OPERATOR_MAP

/-- First-match association lookup (dict access). -/
def assocFind (m : List (String × String)) (k : String) : Option String :=
  match m with
  | [] => Option.none
  | (k', v) :: rest => if k' == k then Option.some v else assocFind rest k

/-- The keyword arguments of `Condition.__init__`, restricted to the
`KWARGS` keys (`left`, `right`, `operator`, `negated`, `value`); with only
these keys `parse_kwargs` returns the single dict unchanged (the
double-underscore shortcut syntax of `parse_kwarg` is not exercised by any
claim). -/
structure CondKwargs where
  left : Option PyVal := Option.none
  right : Option PyVal := Option.none
  operator : Option String := Option.none
  negated : Option PyVal := Option.none
  value : Option PyVal := Option.none

/-- A constructed `Condition`.  `negated` stores the truthiness of the raw
Python attribute (the source keeps the raw object and applies `not` to it;
only its truthiness is ever observable). -/
structure Condition where
  left : PyVal
  right : PyVal
  operator : String
  negated : Bool
  value : PyVal

/-- `Condition.__init__` (rules/core.py lines 163-184):

    tmp = self.parse_kwargs(kwargs)          # [] or [kwargs] here
    if len(tmp) != 1: raise TypeError('Missing all arguments')
    operator = kwargs['operator']            # KeyError if absent
    self.left = kwargs['left']               # KeyError if absent
    right = kwargs.get('right') or ''
    self.negated = kwargs.get('negated') or False
    if operator in self.NEGATED_OPERATOR_MAP: self.negate()   # flips negated
    if operator in self.OPERATOR_MAP: self.operator = self.OPERATOR_MAP[operator]
    elif operator in self.OPERATOR_MAP.values(): self.operator = operator
    else: raise NotImplementedError(...)
    if self.operator != 'bool' and not right: raise ValueError(...)
    self.right = re.compile(right, re.UNICODE) if self.operator == 're' else right
    self.value = kwargs.get('value') or ''
-/
def Condition.init (kwargs : CondKwargs) : Except PyErr Condition :=
  if kwargs.left.isNone && kwargs.right.isNone && kwargs.operator.isNone &&
      kwargs.negated.isNone && kwargs.value.isNone then
    Except.error (PyErr.typeError "Missing all arguments")
  else
    match kwargs.operator with
    | Option.none => Except.error (PyErr.keyError "operator")
    | Option.some operator =>
      match kwargs.left with
      | Option.none => Except.error (PyErr.keyError "left")
      | Option.some left =>
        let right0 :=
          match kwargs.right with
          | Option.some r => if pyTruthy r then r else PyVal.str ""
          | Option.none => PyVal.str ""
        let negated0 :=
          match kwargs.negated with
          | Option.some n => pyTruthy n
          | Option.none => false
        let negated1 :=
          if (assocFind NEGATED_OPERATOR_MAP operator).isSome then !negated0
          else negated0
        match
          (match assocFind OPERATOR_MAP operator with
           | Option.some o => Except.ok o
           | Option.none =>
             if (OPERATOR_MAP.map Prod.snd).contains operator then
               Except.ok operator
             else Except.error (PyErr.notImplementedError "Unknown operator")) with
        | Except.error e => Except.error e
        | Except.ok opFinal =>
          if opFinal != "bool" && !pyTruthy right0 then
            Except.error (PyErr.valueError
              "The right-hand selector is required unless using the bool-exists operator.")
          else
            match
              (if opFinal == "re" then
                match right0 with
                | PyVal.str s => Except.ok (PyVal.regex s)
                | _ => Except.error (PyErr.typeError "re compile expects a pattern string")
              else Except.ok right0) with
            | Except.error e => Except.error e
            | Except.ok rightFinal =>
              let value :=
                match kwargs.value with
                | Option.some v => if pyTruthy v then v else PyVal.str ""
                | Option.none => PyVal.str ""
              Except.ok
                { left := left, right := rightFinal, operator := opFinal,
                  negated := negated1, value := value }

/-- Module-level `get_value(obj, chain, i=0)` (rules/core.py lines 77-86):
stop at the end of the chain or at None; an empty accessor name yields the
object itself (the `lambda: obj` is callable and is called); a dict
(including `DeferredDict`) is read with `.get` (default None); anything else
with `getattr(..., None)` — attribute-bearing stand-ins carry their
attributes, other values have none of the looked-up names; no step raises.
Callable results other than the internal lambda do not occur in this value
universe. -/
def oldGetValue : PyVal → List String → PyVal
  | obj, [] => obj
  | obj, c :: rest =>
    match obj with
    | PyVal.none => PyVal.none
    | _ =>
      let nobj :=
        if c == "" then obj
        else
          match obj with
          | PyVal.pdict xs =>
            match xs.find? (fun p => p.1 == c) with
            | Option.some p => p.2
            | Option.none => PyVal.none
          | PyVal.ddict xs =>
            match xs.find? (fun p => p.1 == c) with
            | Option.some p => p.2
            | Option.none => PyVal.none
          | PyVal.obj attrs =>
            match attrs.find? (fun p => p.1 == c) with
            | Option.some p => p.2
            | Option.none => PyVal.none
          | _ => PyVal.none
      oldGetValue nobj rest

/-- `selector.split('.')` — Python `str.split` with an explicit separator:
the empty string yields `['']`, separators at the ends yield empty pieces. -/
def splitDotAux : List Char → List Char → List String
  | [], acc => [String.mk acc.reverse]
  | c :: rest, acc =>
    if c == '.' then String.mk acc.reverse :: splitDotAux rest []
    else splitDotAux rest (c :: acc)

def splitOnDot (s : String) : List String :=
  splitDotAux s.toList []

/-- `str.isdigit` (nonempty, all digits). -/
def strIsDigit (s : String) : Bool :=
  !(s == "") && s.toList.all Char.isDigit

/-- `int(s)` on a digit string. -/
def strToNatVal (s : String) : Nat :=
  s.toList.foldl (fun acc c => acc * 10 + (c.toNat - '0'.toNat)) 0

/-- `Condition._select(self, selector, objects, extra)` (lines 244-258):
split the selector string on dots; a digit head indexes `objects`
(`IndexError` when out of range), `extra` yields the extra mapping, `const`
yields `self.value`, `model` performs an external ContentType/queryset
lookup (a database access, surfaced as an external call), anything else is
`NotImplementedError`; a non-string selector has no `split` attribute. -/
def Condition.select (cond : Condition) (selector : PyVal)
    (objects : List PyVal) (extra : PyVal) :
    Except PyErr (PyVal × List String) :=
  match selector with
  | PyVal.str sl =>
    let s := splitOnDot sl
    let stype := s.headD ""
    let field := s.tail
    if strIsDigit stype then
      match pyIndexList objects (Int.ofNat (strToNatVal stype)) with
      | Except.ok obj => Except.ok (obj, field)
      | Except.error e => Except.error e
    else if stype == "extra" then Except.ok (extra, field)
    else if stype == "const" then Except.ok (cond.value, field)
    else if stype == "model" then
      Except.error (PyErr.externalCall "model selector resolution")
    else Except.error (PyErr.notImplementedError "Unknown selector type")
  | _ => Except.error (PyErr.attributeError "split")

/-- Python `==` on the universe: structural for matching types, `False`
across types (Python 2 cross-type equality; the `bool`/`int` numeric overlap
is not exercised by any claim). -/
def pyEq (a b : PyVal) : Bool := pyValBeq a b

/-- Python `<` on integers and strings; comparisons outside those (Python 2
orders arbitrary types without raising) are surfaced as external. -/
def pyLt (a b : PyVal) : Except PyErr Bool :=
  match a, b with
  | PyVal.int x, PyVal.int y => Except.ok (decide (x < y))
  | PyVal.str x, PyVal.str y => Except.ok (decide (x < y))
  | _, _ => Except.error (PyErr.externalCall "cross-type comparison")

/-- Python `<=` like `pyLt`. -/
def pyLe (a b : PyVal) : Except PyErr Bool :=
  match a, b with
  | PyVal.int x, PyVal.int y => Except.ok (decide (x ≤ y))
  | PyVal.str x, PyVal.str y => Except.ok (decide (x ≤ y))
  | _, _ => Except.error (PyErr.externalCall "cross-type comparison")

/-- Substring helpers for Python `in` on strings. -/
def listStartsWith : List Char → List Char → Bool
  | _, [] => true
  | [], _ :: _ => false
  | a :: as, b :: bs => a == b && listStartsWith as bs

def listContainsSub : List Char → List Char → Bool
  | l, pat =>
    listStartsWith l pat ||
      match l with
      | [] => false
      | _ :: rest => listContainsSub rest pat

/-- Python `in`: membership in sequences, substring test for strings, key
membership for dicts; `TypeError` for non-containers. -/
def pyIn (a b : PyVal) : Except PyErr Bool :=
  match b with
  | PyVal.plist xs => Except.ok (xs.any (pyValBeq a))
  | PyVal.dlist xs => Except.ok (xs.any (pyValBeq a))
  | PyVal.pdict xs =>
    match a with
    | PyVal.str k => Except.ok (xs.any (fun p => p.1 == k))
    | _ => Except.ok false
  | PyVal.ddict xs =>
    match a with
    | PyVal.str k => Except.ok (xs.any (fun p => p.1 == k))
    | _ => Except.ok false
  | PyVal.str t =>
    match a with
    | PyVal.str s => Except.ok (listContainsSub t.toList s.toList)
    | _ => Except.error (PyErr.typeError "in requires string as left operand")
  | _ => Except.error (PyErr.typeError "argument is not iterable")

/-- `Condition._eval(self, left, right)` (lines 212-232): operator dispatch.
The `re` branch calls `re.search` (regex matching, external); the `bool`
branch tries `left.exists()` — no value of the universe carries an `exists`
attribute, so the `AttributeError` path lands on `bool(left)`. -/
def Condition.evalOp (cond : Condition) (left right : PyVal) :
    Except PyErr Bool :=
  if cond.operator == "==" then Except.ok (pyEq left right)
  else if cond.operator == "re" then
    Except.error (PyErr.externalCall "regex search")
  else if cond.operator == "<" then pyLt left right
  else if cond.operator == "<=" then pyLe left right
  else if cond.operator == "in" then pyIn left right
  else if cond.operator == "bool" then Except.ok (pyTruthy left)
  else Except.error (PyErr.notImplementedError "Comparison type")

/-- `Condition._evaluate(self, objects, extra)` (rules/core.py lines
237-242):

    left = get_value(*self._select(self.left, objects, extra))
    right = get_value(*self._select(self.right, objects, extra))
    left, right = self._try_match_type(left, right)   # identity hook here
    result = self._eval(left, right)
    return not result if self.negated else result

There is no try/except anywhere in this method (nor in `evaluate`, which
just forwards): every exception raised while selecting either operand or
while comparing propagates to the caller. -/
def Condition.evaluateImpl (cond : Condition) (objects : List PyVal)
    (extra : PyVal) : Except PyErr Bool :=
  match Condition.select cond cond.left objects extra with
  | Except.error e => Except.error e
  | Except.ok (lobj, lchain) =>
    let left := oldGetValue lobj lchain
    match Condition.select cond cond.right objects extra with
    | Except.error e => Except.error e
    | Except.ok (robj, rchain) =>
      let right := oldGetValue robj rchain
      match Condition.evalOp cond left right with
      | Except.error e => Except.error e
      | Except.ok result => Except.ok (if cond.negated then !result else result)

/-! ## ConditionTree — assembling a tree from flat records
(rules/core.py lines 261-282)

`ConditionTree(conditions)` materializes a tree from parent-linked records.
Each record carries `pk`, `parent_id`, `connector` and `rule_id`.  The
builder groups records under per-pk `ConditionNode` objects and calls
`parent.add(...)` — the inherited `django.utils.tree.Node.add` (the
validating override is the separate, uncalled method `_add`).  Node objects
are mutable and aliased (a node sits inside its parent while it keeps
receiving children), so the embedding uses an explicit store of node ids. -/

structure CondRec where
  pk : Nat
  parent : Option Nat
  connector : Conn
  rule : Nat
  deriving DecidableEq, Repr

/-- A child of a `ConditionNode`: a record (Django models compare by pk) or
another node (distinct objects, identity = store id). -/
inductive StoreChild where
  | record (r : CondRec)
  | ref (nid : Nat)
  deriving DecidableEq, Repr

structure NodeData where
  connector : Conn
  children : List StoreChild
  deriving DecidableEq, Repr

structure NodeStore where
  next : Nat
  data : List (Nat × NodeData)
  deriving DecidableEq, Repr

/-- Node lookup (a dangling id yields a fresh empty node; never exercised). -/
def NodeStore.get (store : NodeStore) (nid : Nat) : NodeData :=
  match store.data.find? (fun p => p.1 == nid) with
  | Option.some p => p.2
  | Option.none => { connector := ConnDefault, children := [] }

def storeSetAux (data : List (Nat × NodeData)) (nid : Nat) (d : NodeData) :
    List (Nat × NodeData) :=
  match data with
  | [] => [(nid, d)]
  | (k, v) :: rest =>
    if k == nid then (k, d) :: rest else (k, v) :: storeSetAux rest nid d

def NodeStore.set (store : NodeStore) (nid : Nat) (d : NodeData) : NodeStore :=
  { store with data := storeSetAux store.data nid d }

/-- `django.utils.tree.Node.add(self, node, conn_type)` (Django 1.4 line,
the version setup.py pins):

    if node in self.children and conn_type == self.connector: return
    if len(self.children) < 2: self.connector = conn_type
    if self.connector == conn_type:
        if isinstance(node, Node) and (node.connector == conn_type or len(node) == 1):
            self.children.extend(node.children)
        else:
            self.children.append(node)
    else:
        obj = self._new_instance(self.children, self.connector, self.negated)
        self.connector = conn_type
        self.children = [obj, node]

With fewer than two children the connector silently updates; a mismatched
connector on a full node silently demotes the existing children into a fresh
sub-node.  Nothing is ever raised. -/
def nodeAdd (store : NodeStore) (selfId : Nat) (child : StoreChild)
    (conn : Conn) : NodeStore :=
  let selfData := store.get selfId
  if selfData.children.contains child && conn = selfData.connector then store
  else
    let connector1 :=
      if selfData.children.length < 2 then conn else selfData.connector
    if connector1 = conn then
      match child with
      | StoreChild.ref cid =>
        let cdata := store.get cid
        if cdata.connector = conn || cdata.children.length = 1 then
          store.set selfId
            { connector := connector1,
              children := selfData.children ++ cdata.children }
        else
          store.set selfId
            { connector := connector1,
              children := selfData.children ++ [child] }
      | StoreChild.record _ =>
        store.set selfId
          { connector := connector1,
            children := selfData.children ++ [child] }
    else
      let freshId := store.next
      let store1 : NodeStore :=
        { next := store.next + 1,
          data := store.data ++
            [(freshId,
              { connector := connector1, children := selfData.children })] }
      store1.set selfId
        { connector := conn,
          children := [StoreChild.ref freshId, child] }

/-- The per-record loop of `ConditionTree`: check that all records share one
rule, then `parent.add(condition, condition.connector)` and, when the record
is itself a parent, `parent.add(nodes[pk], condition.connector)`. -/
def conditionTreeLoop (pkToNid : List (Nat × Nat)) :
    List CondRec → NodeStore → Option Nat → Except PyErr NodeStore
  | [], store, _ => Except.ok store
  | c :: rest, store, ruleOpt =>
    match
      (match ruleOpt with
       | Option.none => Except.ok c.rule
       | Option.some r =>
         if r == c.rule then Except.ok r
         else Except.error (PyErr.valueError
           "All conditions in a tree must come from the same rule")) with
    | Except.error e => Except.error e
    | Except.ok r =>
      let parentId :=
        match c.parent with
        | Option.none => 0
        | Option.some p =>
          match pkToNid.find? (fun q => q.1 == p) with
          | Option.some q => q.2
          | Option.none => 0
      let store1 := nodeAdd store parentId (StoreChild.record c) c.connector
      let store2 :=
        match pkToNid.find? (fun q => q.1 == c.pk) with
        | Option.some q => nodeAdd store1 parentId (StoreChild.ref q.2) c.connector
        | Option.none => store1
      conditionTreeLoop pkToNid rest store2 (Option.some r)

/-- `ConditionTree(conditions)` (rules/core.py lines 261-282) on a list of
records: empty input yields a bare root; a parent reference to a pk outside
the record set raises `ValueError('Missing parents: ...')`; otherwise one
node object is pre-created per referenced parent pk (store ids 1.. in record
order, the root being id 0) and the records are added with the NON-validating
inherited `add` shown above.  Returns the store and the root id.  (The input
is a record list; the `isinstance ConditionNode` passthrough branch does not
apply.) -/
def ConditionTreeImpl (conditions : List CondRec) :
    Except PyErr (NodeStore × Nat) :=
  if conditions.isEmpty then
    Except.ok
      ({ next := 1, data := [(0, { connector := ConnDefault, children := [] })] }, 0)
  else
    let ids := conditions.map (·.pk)
    let pids := conditions.filterMap (·.parent)
    if (pids.filter (fun p => !ids.contains p)) ≠ [] then
      Except.error (PyErr.valueError "Missing parents")
    else
      let parentPks := (conditions.filter (fun c => pids.contains c.pk)).map (·.pk)
      let pkToNid := parentPks.enum.map (fun q => (q.2, q.1 + 1))
      let store0 : NodeStore :=
        { next := parentPks.length + 1,
          data := (0, { connector := ConnDefault, children := [] }) ::
            pkToNid.map
              (fun q => (q.2, { connector := ConnDefault, children := [] })) }
      match conditionTreeLoop pkToNid conditions store0 Option.none with
      | Except.error e => Except.error e
      | Except.ok store => Except.ok (store, 0)

/-! ## The text-format parser (rules/parser.py)

A hand-written recursive-descent parser over a character list with an
explicit index, mirroring rules/parser.py.  The `madlibs` combinator
plumbing (`Parser`, `subparser`, `parseloop`, `with_parsers`) is an external
dependency: it threads a `pinfo` dict and tries sub-parsers in order,
treating `NotImplemented` as "no match, try next" (spec §9); it is embedded
here as direct calls in the order the `_values`/`_deferred` tuples and
`RuleParser.PARSERS` lay down.  A parse failure is `Option.none` paired with
the index (Python's `(NotImplemented, index)`), a parse error raises. -/

/-- Python `\s` (the whitespace classes the inputs exercise). -/
def isPySpace (c : Char) : Bool :=
  c == ' ' || c == '\t' || c == '\n' || c == '\r' ||
    c == Char.ofNat 11 || c == Char.ofNat 12

def charAt? (s : List Char) (i : Nat) : Option Char :=
  s.get? i

/-- Number of consecutive characters satisfying `p` from index `i`. -/
def countWhileFrom (s : List Char) (i : Nat) (p : Char → Bool) : Nat :=
  ((s.drop i).takeWhile p).length

def skipWs (s : List Char) (i : Nat) : Nat :=
  i + countWhileFrom s i isPySpace

/-- `string[i:i+len(lit)] == lit`. -/
def startsWithAt (s : List Char) (i : Nat) (lit : String) : Bool :=
  listStartsWith (s.drop i) lit.toList

/-- The matched text `string[i:j]`. -/
def sliceStr (s : List Char) (i j : Nat) : String :=
  String.mk ((s.drop i).take (j - i))

def charsToNat (cs : List Char) : Nat :=
  cs.foldl (fun acc c => acc * 10 + (c.toNat - '0'.toNat)) 0

/-- `int(text)` for an optionally signed digit string. -/
def textToInt (s : List Char) (i j : Nat) : Int :=
  match (s.drop i).take (j - i) with
  | '-' :: ds => -(Int.ofNat (charsToNat ds))
  | ds => Int.ofNat (charsToNat ds)

def isDigit19 (c : Char) : Bool := '1' ≤ c && c ≤ '9'

/-- `_nummatch` — the regex
`(-?[1-9][0-9]*|0)(\.[0-9]*)?([eE][+-]?[0-9]+)?` anchored at `i`; yields the
match end, the end of the whole-number part, and whether the fraction/exp
groups participated. -/
def numMatchAt (s : List Char) (i : Nat) :
    Option (Nat × Nat × Bool × Bool) :=
  let wholeEnd? : Option Nat :=
    match charAt? s i with
    | Option.some '-' =>
      match charAt? s (i + 1) with
      | Option.some c =>
        if isDigit19 c then
          Option.some (i + 2 + countWhileFrom s (i + 2) Char.isDigit)
        else Option.none
      | Option.none => Option.none
    | Option.some c =>
      if isDigit19 c then
        Option.some (i + 1 + countWhileFrom s (i + 1) Char.isDigit)
      else if c == '0' then Option.some (i + 1)
      else Option.none
    | Option.none => Option.none
  match wholeEnd? with
  | Option.none => Option.none
  | Option.some wEnd =>
    let (fracEnd, hasFrac) :=
      match charAt? s wEnd with
      | Option.some '.' =>
        (wEnd + 1 + countWhileFrom s (wEnd + 1) Char.isDigit, true)
      | _ => (wEnd, false)
    let (expEnd, hasExp) :=
      match charAt? s fracEnd with
      | Option.some c =>
        if c == 'e' || c == 'E' then
          let j :=
            match charAt? s (fracEnd + 1) with
            | Option.some d => if d == '+' || d == '-' then fracEnd + 2
                               else fracEnd + 1
            | Option.none => fracEnd + 1
          let dcnt := countWhileFrom s j Char.isDigit
          if dcnt > 0 then (j + dcnt, true) else (fracEnd, false)
        else (fracEnd, false)
      | Option.none => (fracEnd, false)
    Option.some (expEnd, wEnd, hasFrac, hasExp)

/-- `_floatconstmatch` — `[-+]?inf(?:inity)?|nan`, case-insensitive. -/
def floatConstMatchAt (s : List Char) (i : Nat) : Option Nat :=
  let lowEq : Nat → String → Bool := fun j lit =>
    listStartsWith ((s.drop j).take lit.length |>.map Char.toLower) lit.toList
      && (s.drop j).length ≥ lit.length
  let j :=
    match charAt? s i with
    | Option.some c => if c == '+' || c == '-' then i + 1 else i
    | Option.none => i
  if lowEq j "infinity" then Option.some (j + 8)
  else if lowEq j "inf" then Option.some (j + 3)
  else if lowEq i "nan" then Option.some (i + 3)
  else Option.none

/-- `parse_number` (rules/parser.py lines 83-95): an int when neither the
fraction nor the exponent group matched, a float literal otherwise; then the
inf/nan constants. -/
def parseNumber (s : List Char) (i : Nat) : Option (PyVal × Nat) :=
  match numMatchAt s i with
  | Option.some (mEnd, wEnd, hasFrac, hasExp) =>
    if hasFrac || hasExp then
      Option.some (PyVal.floatLit (sliceStr s i mEnd), mEnd)
    else
      Option.some (PyVal.int (textToInt s i wEnd), wEnd)
  | Option.none =>
    match floatConstMatchAt s i with
    | Option.some mEnd => Option.some (PyVal.floatLit (sliceStr s i mEnd), mEnd)
    | Option.none => Option.none

/-- `parse_const` (lines 100-108): the literals `true`, `false`, `null`
(checked by slice comparison exactly as the source does). -/
def parseConstLit (s : List Char) (i : Nat) : Option (PyVal × Nat) :=
  if startsWithAt s i "true" then Option.some (PyVal.bool true, i + 4)
  else if startsWithAt s i "false" then Option.some (PyVal.bool false, i + 5)
  else if startsWithAt s i "null" then Option.some (PyVal.none, i + 4)
  else Option.none

/-- The escape table of `json.decoder.scanstring`. -/
def jsonEscape (c : Char) : Option Char :=
  if c == '"' then Option.some '"'
  else if c == '\\' then Option.some '\\'
  else if c == '/' then Option.some '/'
  else if c == 'b' then Option.some (Char.ofNat 8)
  else if c == 'f' then Option.some (Char.ofNat 12)
  else if c == 'n' then Option.some '\n'
  else if c == 'r' then Option.some '\r'
  else if c == 't' then Option.some '\t'
  else Option.none

/-- The scan loop of `json.decoder.scanstring` starting after the opening
quote: returns the string and the number of characters consumed including
the closing quote (`\uXXXX` escapes are external to this embedding and no
input uses them). -/
def scanStringAux : List Char → List Char → Nat → Except PyErr (String × Nat)
  | [], _, _ =>
    Except.error (PyErr.valueError "Unterminated string starting at")
  | '"' :: _, acc, consumed => Except.ok (String.mk acc.reverse, consumed + 1)
  | '\\' :: rest, acc, consumed =>
    match rest with
    | [] => Except.error (PyErr.valueError "Unterminated string starting at")
    | e :: rest2 =>
      match jsonEscape e with
      | Option.some c => scanStringAux rest2 (c :: acc) (consumed + 2)
      | Option.none =>
        if e == 'u' then Except.error (PyErr.externalCall "unicode escape")
        else Except.error (PyErr.valueError "Invalid escape")
  | c :: rest, acc, consumed => scanStringAux rest (c :: acc) (consumed + 1)

/-- `parse_string` (lines 111-114): a double quote hands off to
`json.decoder.scanstring`. -/
def parseStringLit (s : List Char) (i : Nat) :
    Except PyErr (Option (PyVal × Nat)) :=
  if i < s.length && charAt? s i == Option.some '"' then
    match scanStringAux (s.drop (i + 1)) [] 0 with
    | Except.ok (str, k) => Except.ok (Option.some (PyVal.str str, i + 1 + k))
    | Except.error e => Except.error e
  else Except.ok Option.none

/-- `madlibs.json.parse_datetime`/`parse_date`/`parse_time` are external
(the madlibs package).  Modelled from the spec: they recognize the ISO forms
`str()` produces for Python datetime/date/time values — a date starts with
four digits and a dash, a time with two digits and a colon.  Anything else
is no-match; an actual ISO prefix would hand off to the external package,
surfaced as an external call (no claim input contains one). -/
def parseDateLike (s : List Char) (i : Nat) (isTime : Bool) :
    Except PyErr (Option (PyVal × Nat)) :=
  if isTime then
    if countWhileFrom s i Char.isDigit == 2 &&
        charAt? s (i + 2) == Option.some ':' then
      Except.error (PyErr.externalCall "madlibs time parsing")
    else Except.ok Option.none
  else
    if countWhileFrom s i Char.isDigit == 4 &&
        charAt? s (i + 4) == Option.some '-' then
      Except.error (PyErr.externalCall "madlibs date parsing")
    else Except.ok Option.none

/-- The operator alternation of `_opmatch` (lines 287-294), in source order
(`<=` before `<`, `>=` before `>` — "NOTE" comment in the source). -/
def opAlternation : List String :=
  ["==", "!=", "<=", "<", ">=", ">", "like", "not like", "re", "exists",
   "does not exist", "bool", "in", "not in"]

/-- First alternative matching at `i` (regex alternation order). -/
def firstAltAt (s : List Char) (i : Nat) : List String → Option (String × Nat)
  | [] => Option.none
  | a :: rest =>
    if startsWithAt s i a then Option.some (a, i + a.length)
    else firstAltAt s i rest

/-- `parse_operator` — `\s+(<alternation>)`: at least one whitespace, then
the first matching operator token. -/
def parseOperator (s : List Char) (i : Nat) : Option (String × Nat) :=
  let w := countWhileFrom s i isPySpace
  if w == 0 then Option.none
  else firstAltAt s (i + w) opAlternation

/-- `_ident` — `[^\d\W]\w*` (ASCII identifiers; the claims exercise no
non-ASCII names). -/
def isIdentStart (c : Char) : Bool := c.isAlpha || c == '_'
def isIdentChar (c : Char) : Bool := c.isAlphanum || c == '_'

def identMatchAt (s : List Char) (i : Nat) : Option Nat :=
  match charAt? s i with
  | Option.some c =>
    if isIdentStart c then
      Option.some (i + 1 + countWhileFrom s (i + 1) isIdentChar)
    else Option.none
  | Option.none => Option.none

/-- `_chainmatch` — `\.(-?[0-9]+|<ident>)(:)?`: returns the accessor (an int
when `int()` succeeds on the text, else the string), whether the `:` divider
was present, and the match end. -/
def chainMatchAt (s : List Char) (i : Nat) :
    Option (PyVal × Bool × Nat) :=
  if charAt? s i == Option.some '.' then
    let j := i + 1
    let attrEnd? : Option (Nat × Bool) :=
      match charAt? s j with
      | Option.some '-' =>
        if countWhileFrom s (j + 1) Char.isDigit > 0 then
          Option.some (j + 1 + countWhileFrom s (j + 1) Char.isDigit, true)
        else Option.none
      | Option.some c =>
        if c.isDigit then
          Option.some (j + countWhileFrom s j Char.isDigit, true)
        else
          match identMatchAt s j with
          | Option.some e => Option.some (e, false)
          | Option.none => Option.none
      | Option.none => Option.none
    match attrEnd? with
    | Option.none => Option.none
    | Option.some (aEnd, isInt) =>
      let attr :=
        if isInt then PyVal.int (textToInt s j aEnd)
        else PyVal.str (sliceStr s j aEnd)
      match charAt? s aEnd with
      | Option.some ':' => Option.some (attr, true, aEnd + 1)
      | _ => Option.some (attr, false, aEnd)
  else Option.none

/-- `_smatch` — `object:\d+|extra|const:|model:|\\\d+`, alternation in
source order. -/
inductive SMatch where
  | objectN (n : Int) (matchEnd : Nat)
  | extraTok (matchEnd : Nat)
  | constTok (matchEnd : Nat)
  | modelTok (matchEnd : Nat)
  | backref (n : Nat) (matchEnd : Nat)

def smatchAt (s : List Char) (i : Nat) : Option SMatch :=
  if startsWithAt s i "object:" &&
      countWhileFrom s (i + 7) Char.isDigit > 0 then
    let e := i + 7 + countWhileFrom s (i + 7) Char.isDigit
    Option.some (SMatch.objectN (textToInt s (i + 7) e) e)
  else if startsWithAt s i "extra" then Option.some (SMatch.extraTok (i + 5))
  else if startsWithAt s i "const:" then Option.some (SMatch.constTok (i + 6))
  else if startsWithAt s i "model:" then Option.some (SMatch.modelTok (i + 6))
  else if charAt? s i == Option.some '\\' &&
      countWhileFrom s (i + 1) Char.isDigit > 0 then
    let e := i + 1 + countWhileFrom s (i + 1) Char.isDigit
    Option.some (SMatch.backref (charsToNat ((s.drop (i + 1)).take (e - i - 1))) e)
  else Option.none

/-- `_modelmatch` — `<ident>\.<ident>`. -/
def modelMatchAt (s : List Char) (i : Nat) : Option Nat :=
  match identMatchAt s i with
  | Option.none => Option.none
  | Option.some e1 =>
    if charAt? s e1 == Option.some '.' then
      match identMatchAt s (e1 + 1) with
      | Option.none => Option.none
      | Option.some e2 => Option.some e2
    else Option.none

/-- `_funcmatch` — `(<FUNCS alternation>)\(` (no registry name is a prefix
of another followed by `(`, so the dict iteration order is immaterial). -/
def funcMatchAt (s : List Char) (i : Nat) : Option (String × Nat) :=
  (funcNames.filterMap (fun n =>
    if startsWithAt s i (n ++ "(") then Option.some (n, i + n.length + 1)
    else Option.none)).head?

/-- `_expectmatch` — `\s*(NOT\s+|\(\s*)?`: skip whitespace, then an optional
`NOT` (with at least one following space) or an opening parenthesis (with
trailing spaces consumed). -/
inductive ExpectSym where
  | notTok
  | parenTok

def expectMatchAt (s : List Char) (i : Nat) : Option ExpectSym × Nat :=
  let j := skipWs s i
  if startsWithAt s j "NOT" && countWhileFrom s (j + 3) isPySpace > 0 then
    (Option.some ExpectSym.notTok, j + 3 + countWhileFrom s (j + 3) isPySpace)
  else if charAt? s j == Option.some '(' then
    (Option.some ExpectSym.parenTok, j + 1 + countWhileFrom s (j + 1) isPySpace)
  else (Option.none, j)

/-- `_connmatch` — `\s+(AND|OR)\s+`. -/
def connMatchAt (s : List Char) (i : Nat) : Option (Conn × Nat) :=
  let w := countWhileFrom s i isPySpace
  if w == 0 then Option.none
  else
    let j := i + w
    if startsWithAt s j "AND" && countWhileFrom s (j + 3) isPySpace > 0 then
      Option.some (Conn.AND, j + 3 + countWhileFrom s (j + 3) isPySpace)
    else if startsWithAt s j "OR" && countWhileFrom s (j + 2) isPySpace > 0 then
      Option.some (Conn.OR, j + 2 + countWhileFrom s (j + 2) isPySpace)
    else Option.none

/-- Modelled from the spec: `Condition.is_unary`.  The method is referenced
by rules/parser.py line 308 and rules/formatter.py line 71 and asserted by
the test suite (`test_core.test_is_unary`: the unary operators are `bool`,
`exists`, `does not exist`), but the Condition revision in src predates it;
the spec's grammar gives exactly these three as `unary-op`. -/
def Condition.isUnary (op : String) : Bool :=
  op == "exists" || op == "does not exist" || op == "bool"

/-! ## Parsed condition trees

`parse_tree` builds a `ConditionNode` whose children are `Condition` leaves
or nested nodes.  The nodes here are freshly built and unaliased, so the
tree is a plain inductive; `add` is the same Django `tree.Node.add` embedded
for `ConditionTree`, restated functionally. -/

inductive PTree where
  | leafC (c : Condition)
  | node (connector : Conn) (children : List PTree)

/-- `Condition.__eq__` is not defined in rules/core.py, so Python compares
leaves by identity; every leaf built during one parse is a fresh object.
Structural comparison coincides with identity on parses whose leaves are
pairwise structurally distinct (true of every input below). -/
def condBeq (a b : Condition) : Bool :=
  pyValBeq a.left b.left && pyValBeq a.right b.right &&
    a.operator == b.operator && a.negated == b.negated &&
    pyValBeq a.value b.value

mutual

def ptreeBeq : PTree → PTree → Bool
  | PTree.leafC a, PTree.leafC b => condBeq a b
  | PTree.node c1 xs, PTree.node c2 ys => c1 == c2 && ptreeListBeq xs ys
  | _, _ => false

def ptreeListBeq : List PTree → List PTree → Bool
  | [], [] => true
  | x :: xs, y :: ys => ptreeBeq x y && ptreeListBeq xs ys
  | _, _ => false

end

def ptreeMember (children : List PTree) (t : PTree) : Bool :=
  children.any (ptreeBeq t)

/-- `django.utils.tree.Node.add` on an unaliased node (same semantics as
`nodeAdd` above): the node is its `(connector, children)` pair. -/
def ptreeAdd (selfConn : Conn) (children : List PTree) (child : PTree)
    (conn : Conn) : Conn × List PTree :=
  if ptreeMember children child && conn = selfConn then (selfConn, children)
  else
    let connector1 := if children.length < 2 then conn else selfConn
    if connector1 = conn then
      match child with
      | PTree.node cconn ccs =>
        if cconn = conn || ccs.length = 1 then (connector1, children ++ ccs)
        else (connector1, children ++ [child])
      | PTree.leafC _ => (connector1, children ++ [child])
    else
      (conn, [PTree.node connector1 children, child])

mutual

/-- `negate()` on a parsed child: a `Condition` leaf flips its flag
(rules/core.py lines 190-191); a `ConditionNode` child runs the node
`negate` — which, as established for `ConditionNode.negateImpl`, wraps the
negated children under the dual connector and then raises
`NameError: name 'default' is not defined`. -/
def ptreeNegate : PTree → PTree × Except PyErr Unit
  | PTree.leafC c => (PTree.leafC { c with negated := !c.negated }, Except.ok ())
  | PTree.node conn cs =>
    match ptreeNegateChildren cs with
    | (cs', Except.error e) => (PTree.node conn cs', Except.error e)
    | (cs', Except.ok ()) =>
      (PTree.node conn [PTree.node (Conn.dualOf conn) cs'],
       Except.error (PyErr.nameError "default"))

def ptreeNegateChildren : List PTree → List PTree × Except PyErr Unit
  | [] => ([], Except.ok ())
  | t :: ts =>
    match ptreeNegate t with
    | (t', Except.error e) => (t' :: ts, Except.error e)
    | (t', Except.ok ()) =>
      match ptreeNegateChildren ts with
      | (ts', r) => (t' :: ts', r)

end

mutual

/-- `ConditionNode.collapse` (rules/core.py lines 37-53): walk the children;
a node child is collapsed first, and when it then has no children or shares
the parent's connector the source executes `children.pop(i)` — `children` is
again an unbound name (the local list is `c`), so reaching that inlining
branch raises `NameError`; otherwise move on.  After the walk, a single
remaining node child replaces the parent's connector and children. -/
def ptreeCollapse : PTree → Except PyErr PTree
  | PTree.leafC c => Except.ok (PTree.leafC c)
  | PTree.node conn cs =>
    match ptreeCollapseChildren conn cs with
    | Except.error e => Except.error e
    | Except.ok cs' =>
      match cs' with
      | [PTree.node c2 cs2] => Except.ok (PTree.node c2 cs2)
      | _ => Except.ok (PTree.node conn cs')

def ptreeCollapseChildren (parentConn : Conn) :
    List PTree → Except PyErr (List PTree)
  | [] => Except.ok []
  | child :: rest =>
    match child with
    | PTree.node _ _ =>
      match ptreeCollapse child with
      | Except.error e => Except.error e
      | Except.ok child' =>
        match child' with
        | PTree.node cconn ccs =>
          if ccs.isEmpty || cconn = parentConn then
            Except.error (PyErr.nameError "children")
          else
            match ptreeCollapseChildren parentConn rest with
            | Except.error e => Except.error e
            | Except.ok rest' => Except.ok (child' :: rest')
        | PTree.leafC _ =>
          match ptreeCollapseChildren parentConn rest with
          | Except.error e => Except.error e
          | Except.ok rest' => Except.ok (child' :: rest')
    | PTree.leafC _ =>
      match ptreeCollapseChildren parentConn rest with
      | Except.error e => Except.error e
      | Except.ok rest' => Except.ok (child :: rest')

end

/-- `Function.__init__` (rules/deferred.py lines 193-198): unknown names are
`ValueError`; a deferred argument pack is constant-folded at construction. -/
def Function.init (name : String) (args : PyVal) : Except PyErr PyVal :=
  if !funcNames.contains name then
    Except.error (PyErr.valueError "is not a recognized function.")
  else
    match (if isDeferredValue args then maybeConst args else Except.ok args) with
    | Except.ok a => Except.ok (PyVal.func name a)
    | Except.error e => Except.error e

/-- Which element parser a `_parse_list` call threads (`pinfo['parse']` /
the explicit `parse` argument). -/
inductive ElemP where
  | valueE
  | pairE
  | deferredE

mutual

/-- `parse_value` — `parseloop` over the `_values` tuple in source order:
selector, function, object, array, string, datetime, date, time, number,
const (rules/parser.py lines 260-275). -/
def parseValue (fuel : Nat) (s : List Char) (i : Nat) (deferred : List PyVal) :
    Except PyErr (Option PyVal × Nat) :=
  match fuel with
  | 0 => Except.error (PyErr.externalCall "recursion limit")
  | Nat.succ fuel =>
    match parseSelector fuel s i deferred with
    | Except.error e => Except.error e
    | Except.ok (Option.some v, j) => Except.ok (Option.some v, j)
    | Except.ok (Option.none, _) =>
      match parseFunction fuel s i deferred with
      | Except.error e => Except.error e
      | Except.ok (Option.some v, j) => Except.ok (Option.some v, j)
      | Except.ok (Option.none, _) =>
        match parseObject fuel s i deferred with
        | Except.error e => Except.error e
        | Except.ok (Option.some v, j) => Except.ok (Option.some v, j)
        | Except.ok (Option.none, _) =>
          match parseArray fuel s i deferred with
          | Except.error e => Except.error e
          | Except.ok (Option.some v, j) => Except.ok (Option.some v, j)
          | Except.ok (Option.none, _) =>
            match parseStringLit s i with
            | Except.error e => Except.error e
            | Except.ok (Option.some r) => Except.ok (Option.some r.1, r.2)
            | Except.ok Option.none =>
              match parseDateLike s i false with
              | Except.error e => Except.error e
              | Except.ok (Option.some r) => Except.ok (Option.some r.1, r.2)
              | Except.ok Option.none =>
                match parseDateLike s i true with
                | Except.error e => Except.error e
                | Except.ok (Option.some r) => Except.ok (Option.some r.1, r.2)
                | Except.ok Option.none =>
                  match parseNumber s i with
                  | Option.some (v, j) => Except.ok (Option.some v, j)
                  | Option.none =>
                    match parseConstLit s i with
                    | Option.some (v, j) => Except.ok (Option.some v, j)
                    | Option.none => Except.ok (Option.none, i)

termination_by structural fuel

/-- `parse_selector` (rules/parser.py lines 212-248). -/
def parseSelector (fuel : Nat) (s : List Char) (i : Nat) (deferred : List PyVal) :
    Except PyErr (Option PyVal × Nat) :=
  match fuel with
  | 0 => Except.error (PyErr.externalCall "recursion limit")
  | Nat.succ fuel =>
    match smatchAt s i with
    | Option.none => Except.ok (Option.none, i)
    | Option.some m =>
      match m with
      | SMatch.backref n e =>
        match deferred.get? n with
        | Option.none =>
          Except.error (PyErr.valueError
            "is a deferred value that has not yet been defined.")
        | Option.some v => parseSelectorTail fuel s e deferred v
      | SMatch.modelTok e =>
        match modelMatchAt s e with
        | Option.none =>
          Except.error (PyErr.valueError
            "model selector type must be followed by a model name.")
        | Option.some e2 =>
          parseSelectorTail fuel s e2 deferred
            (PyVal.plist [PyVal.str "model", PyVal.str (sliceStr s e e2)])
      | SMatch.constTok e =>
        match parseValue fuel s e deferred with
        | Except.error er => Except.error er
        | Except.ok (Option.none, _) =>
          Except.error (PyErr.valueError "Invalid const selector at index")
        | Except.ok (Option.some v, i2) =>
          -- const type doesn't accept a chain, so return now (chain = None)
          match Selector.init (PyVal.plist [PyVal.str "const", v]) PyVal.none with
          | Except.ok sv => Except.ok (Option.some sv, i2)
          | Except.error er => Except.error er
      | SMatch.extraTok e => parseSelectorTail fuel s e deferred (PyVal.str "extra")
      | SMatch.objectN n e => parseSelectorTail fuel s e deferred (PyVal.int n)

termination_by structural fuel

/-- The tail of `parse_selector` shared by every non-const stype: parse the
chain, short-circuit a chainless deferred stype, otherwise construct the
Selector. -/
def parseSelectorTail (fuel : Nat) (s : List Char) (i : Nat) (deferred : List PyVal) (stype : PyVal) :
    Except PyErr (Option PyVal × Nat) :=
  match fuel with
  | 0 => Except.error (PyErr.externalCall "recursion limit")
  | Nat.succ fuel =>
    match parseSelectorChain fuel s i deferred with
    | Except.error e => Except.error e
    | Except.ok (items, i2) =>
      let chainV := PyVal.dlist items
      if isDeferredValue stype && !pyTruthy chainV then
        Except.ok (Option.some stype, i2)
      else
        match Selector.init stype chainV with
        | Except.ok sv => Except.ok (Option.some sv, i2)
        | Except.error e => Except.error e

termination_by structural fuel

/-- `_parse_selector_chain` (rules/parser.py lines 182-209): repeat
`_chainmatch`; a `:` divider parses a value (deferred pairs are wrapped in a
`DeferredList`, plain ones in a tuple); a `;` after an accessor is
consumed. -/
def parseSelectorChain (fuel : Nat) (s : List Char) (i : Nat) (deferred : List PyVal) :
    Except PyErr (List PyVal × Nat) :=
  match fuel with
  | 0 => Except.error (PyErr.externalCall "recursion limit")
  | Nat.succ fuel =>
    match chainMatchAt s i with
    | Option.none => Except.ok ([], i)
    | Option.some (attr, divider, i1) =>
      match
        (if divider then
          match parseValue fuel s i1 deferred with
          | Except.error e => Except.error e
          | Except.ok (Option.none, _) =>
            Except.error (PyErr.valueError "Invalid Rule starting at index")
          | Except.ok (Option.some v, i2) =>
            if isDeferredValue v then
              Except.ok (PyVal.dlist [attr, v], i2)
            else
              Except.ok (PyVal.plist [attr, v], i2)
        else Except.ok (attr, i1)) with
      | Except.error e => Except.error e
      | Except.ok (item, i2) =>
        let i3 :=
          if i2 < s.length && charAt? s i2 == Option.some ';' then i2 + 1
          else i2
        match parseSelectorChain fuel s i3 deferred with
        | Except.error e => Except.error e
        | Except.ok (rest, i4) => Except.ok (item :: rest, i4)

termination_by structural fuel

/-- `parse_function` (rules/parser.py lines 251-258). -/
def parseFunction (fuel : Nat) (s : List Char) (i : Nat) (deferred : List PyVal) :
    Except PyErr (Option PyVal × Nat) :=
  match fuel with
  | 0 => Except.error (PyErr.externalCall "recursion limit")
  | Nat.succ fuel =>
    match funcMatchAt s i with
    | Option.none => Except.ok (Option.none, i)
    | Option.some (name, argsStart) =>
      match parseListRun fuel ElemP.valueE s argsStart false ')' [] deferred
          false with
      | Except.error e => Except.error e
      | Except.ok (acc, _, i2) =>
        match Function.init name (PyVal.dlist acc) with
        | Except.ok fv => Except.ok (Option.some fv, i2)
        | Except.error e => Except.error e

termination_by structural fuel

/-- `parse_object` (rules/parser.py lines 175-179); reading past the end of
the string is Python's `IndexError`. -/
def parseObject (fuel : Nat) (s : List Char) (i : Nat) (deferred : List PyVal) :
    Except PyErr (Option PyVal × Nat) :=
  match fuel with
  | 0 => Except.error (PyErr.externalCall "recursion limit")
  | Nat.succ fuel =>
    match charAt? s i with
    | Option.none => Except.error PyErr.indexError
    | Option.some c =>
      if c == '{' then
        match parseListRun fuel ElemP.pairE s (i + 1) false '}' [] deferred
            false with
        | Except.error e => Except.error e
        | Except.ok (acc, _, i2) =>
          let pairs := acc.filterMap (fun p =>
            match p with
            | PyVal.plist [PyVal.str k, v] => Option.some (k, v)
            | _ => Option.none)
          Except.ok (Option.some (PyVal.ddict pairs), i2)
      else Except.ok (Option.none, i)

termination_by structural fuel

/-- `_pair` (rules/parser.py lines 157-172): a JSON string key, optional
whitespace, `:`, optional whitespace, a value. -/
def parsePair (fuel : Nat) (s : List Char) (i : Nat) (deferred : List PyVal) :
    Except PyErr (Option PyVal × Nat) :=
  match fuel with
  | 0 => Except.error (PyErr.externalCall "recursion limit")
  | Nat.succ fuel =>
    match parseStringLit s i with
    | Except.error e => Except.error e
    | Except.ok Option.none => Except.ok (Option.none, i)
    | Except.ok (Option.some (key, i1)) =>
      let i2 := skipWs s i1
      match charAt? s i2 with
      | Option.none => Except.error PyErr.indexError
      | Option.some c =>
        if c != ':' then Except.ok (Option.none, i2)
        else
          let i3 := skipWs s (i2 + 1)
          match parseValue fuel s i3 deferred with
          | Except.error e => Except.error e
          | Except.ok (Option.none, i4) => Except.ok (Option.none, i4)
          | Except.ok (Option.some v, i4) =>
            Except.ok (Option.some (PyVal.plist [key, v]), i4)

termination_by structural fuel

/-- `parse_array` (rules/parser.py lines 151-154). -/
def parseArray (fuel : Nat) (s : List Char) (i : Nat) (deferred : List PyVal) :
    Except PyErr (Option PyVal × Nat) :=
  match fuel with
  | 0 => Except.error (PyErr.externalCall "recursion limit")
  | Nat.succ fuel =>
    match charAt? s i with
    | Option.none => Except.error PyErr.indexError
    | Option.some c =>
      if c == '[' then
        match parseListRun fuel ElemP.valueE s (i + 1) false ']' [] deferred
            false with
        | Except.error e => Except.error e
        | Except.ok (acc, _, i2) => Except.ok (Option.some (PyVal.dlist acc), i2)
      else Except.ok (Option.none, i)

termination_by structural fuel

/-- `parse_deferred` — `parseloop` over `_deferred`: selector then
function. -/
def parseDeferredValue (fuel : Nat) (s : List Char) (i : Nat) (deferred : List PyVal) :
    Except PyErr (Option PyVal × Nat) :=
  match fuel with
  | 0 => Except.error (PyErr.externalCall "recursion limit")
  | Nat.succ fuel =>
    match parseSelector fuel s i deferred with
    | Except.error e => Except.error e
    | Except.ok (Option.some v, j) => Except.ok (Option.some v, j)
    | Except.ok (Option.none, _) =>
      match parseFunction fuel s i deferred with
      | Except.error e => Except.error e
      | Except.ok (Option.some v, j) => Except.ok (Option.some v, j)
      | Except.ok (Option.none, _) => Except.ok (Option.none, i)

termination_by structural fuel

/-- `_parse_list` (rules/parser.py lines 121-148): skip whitespace; when an
element is expected parse one (a non-match is a parse error); otherwise the
terminator closes the list, an empty accumulator starts expecting without
consuming, a comma starts expecting, anything else is a parse error; running
out of input is the "Unfinished sequence" error.  With `shared` the
accumulator IS the `pinfo['deferred']` list (the `with(...)` case), so
elements parsed later see those parsed earlier. -/
def parseListRun (fuel : Nat) (ep : ElemP) (s : List Char) (i : Nat) (expect : Bool) (term : Char) (acc : List PyVal) (deferred : List PyVal) (shared : Bool) :
    Except PyErr (List PyVal × List PyVal × Nat) :=
  match fuel with
  | 0 => Except.error (PyErr.externalCall "recursion limit")
  | Nat.succ fuel =>
    match charAt? s i with
    | Option.none =>
      Except.error (PyErr.valueError "Unfinished sequence, started at index")
    | Option.some c =>
      if isPySpace c then
        parseListRun fuel ep s (i + 1) expect term acc deferred shared
      else if expect then
        match
          (match ep with
           | ElemP.valueE => parseValue fuel s i deferred
           | ElemP.pairE => parsePair fuel s i deferred
           | ElemP.deferredE => parseDeferredValue fuel s i deferred) with
        | Except.error e => Except.error e
        | Except.ok (Option.none, _) =>
          Except.error (PyErr.valueError "Invalid Rule starting at index")
        | Except.ok (Option.some v, i2) =>
          let acc' := acc ++ [v]
          let deferred' := if shared then acc' else deferred
          parseListRun fuel ep s i2 false term acc' deferred' shared
      else if c == term then Except.ok (acc, deferred, i + 1)
      else if acc.isEmpty then
        parseListRun fuel ep s i true term acc deferred shared
      else if c == ',' then
        parseListRun fuel ep s (i + 1) true term acc deferred shared
      else Except.error (PyErr.valueError "Invalid Rule starting at index")

termination_by structural fuel

end

/-- `parse_condition` (rules/parser.py lines 297-323): a value (wrapped into
a const Selector when plain), an operator (required), and — for a binary
operator — mandatory whitespace and a right value (wrapped likewise). -/
def parseCondition (fuel : Nat) (s : List Char) (i : Nat) (deferred : List PyVal) :
    Except PyErr (Option Condition × Nat) :=
  match fuel with
  | 0 => Except.error (PyErr.externalCall "recursion limit")
  | Nat.succ fuel =>
    match parseValue fuel s i deferred with
    | Except.error e => Except.error e
    | Except.ok (Option.none, i1) => Except.ok (Option.none, i1)
    | Except.ok (Option.some left0, i1) =>
      match
        (if !isDeferredValue left0 then
          Selector.init (PyVal.plist [PyVal.str "const", left0]) (PyVal.plist [])
        else Except.ok left0) with
      | Except.error e => Except.error e
      | Except.ok left =>
        match parseOperator s i1 with
        | Option.none =>
          Except.error (PyErr.valueError "Expected operator at index")
        | Option.some (op, i2) =>
          if Condition.isUnary op then
            match Condition.init
                { left := Option.some left, operator := Option.some op } with
            | Except.ok c => Except.ok (Option.some c, i2)
            | Except.error e => Except.error e
          else
            let w := countWhileFrom s i2 isPySpace
            if w == 0 then
              Except.error (PyErr.valueError
                "Binary operator must have whitespace at index")
            else
              match parseValue fuel s (i2 + w) deferred with
              | Except.error e => Except.error e
              | Except.ok (Option.none, _) =>
                Except.error (PyErr.valueError
                  "Expected deferred value at index")
              | Except.ok (Option.some right0, i3) =>
                match
                  (if !isDeferredValue right0 then
                    Selector.init (PyVal.plist [PyVal.str "const", right0])
                      (PyVal.plist [])
                  else Except.ok right0) with
                | Except.error e => Except.error e
                | Except.ok right =>
                  match Condition.init
                      { left := Option.some left,
                        right := Option.some right,
                        operator := Option.some op } with
                  | Except.ok c => Except.ok (Option.some c, i3)
                  | Except.error e => Except.error e

mutual

/-- The while loop of `parse_tree` (rules/parser.py lines 326-370).  State:
the node being filled (`connector`, `children`), the pending connector
`conn`, the `negate_next` flag and `expect` (-1 initially, 1 after a
connector, 0 after a member). -/
def parseTreeLoop (fuel : Nat) (s : List Char) (i : Nat) (nodeConn : Conn) (children : List PTree) (conn : Conn) (negateNext : Bool) (expect : Int) (deferred : List PyVal) :
    Except PyErr ((Conn × List PTree) × Nat) :=
  match fuel with
  | 0 => Except.error (PyErr.externalCall "recursion limit")
  | Nat.succ fuel =>
    if i ≥ s.length then
      if expect > 0 then
        Except.error (PyErr.valueError "Expected condition at index")
      else Except.ok ((nodeConn, children), i)
    else if expect != 0 then
      match expectMatchAt s i with
      | (Option.some ExpectSym.notTok, i1) =>
        parseTreeLoop fuel s i1 nodeConn children conn (!negateNext) expect
          deferred
      | (Option.some ExpectSym.parenTok, i1) =>
        match parseTreeLoop fuel s i1 Conn.AND [] Conn.AND false (-1)
            deferred with
        | Except.error e => Except.error e
        | Except.ok ((innerConn, innerChildren), i2) =>
          let i3 := skipWs s i2
          if i3 ≥ s.length || charAt? s i3 != Option.some ')' then
            Except.error (PyErr.valueError "Expected close paren at index")
          else
            parseTreeAddResult fuel s (i3 + 1) nodeConn children conn
              negateNext (PTree.node innerConn innerChildren) deferred
      | (Option.none, i1) =>
        match parseCondition fuel s i1 deferred with
        | Except.error e => Except.error e
        | Except.ok (Option.none, i2) =>
          if expect < 0 then Except.ok ((nodeConn, children), i2)
          else Except.error (PyErr.valueError "Expected condition or subtree at")
        | Except.ok (Option.some c, i2) =>
          parseTreeAddResult fuel s i2 nodeConn children conn negateNext
            (PTree.leafC c) deferred
    else
      match connMatchAt s i with
      | Option.some (c, i1) =>
        parseTreeLoop fuel s i1 nodeConn children c negateNext 1 deferred
      | Option.none => Except.ok ((nodeConn, children), i)

termination_by structural fuel

/-- The tail of a successful member parse in `parse_tree`: apply a pending
negation (which raises on a parenthesized sub-node, see `ptreeNegate`),
`node.add(result, conn)`, and continue with `expect = 0`. -/
def parseTreeAddResult (fuel : Nat) (s : List Char) (i : Nat) (nodeConn : Conn) (children : List PTree) (conn : Conn) (negateNext : Bool) (result : PTree) (deferred : List PyVal) :
    Except PyErr ((Conn × List PTree) × Nat) :=
  match fuel with
  | 0 => Except.error (PyErr.externalCall "recursion limit")
  | Nat.succ fuel =>
    match
      (if negateNext then
        match ptreeNegate result with
        | (r', Except.ok ()) => Except.ok r'
        | (_, Except.error e) => Except.error e
      else Except.ok result) with
    | Except.error e => Except.error e
    | Except.ok result' =>
      let (nodeConn', children') := ptreeAdd nodeConn children result' conn
      parseTreeLoop fuel s i nodeConn' children' conn false 0 deferred

termination_by structural fuel

end

/-- `parse_deferred_list` (rules/parser.py lines 279-284): initialize
`pinfo['deferred']` to the empty list; a `with(` prefix fills it via
`_parse_list` with `expect=True` (so `with()` is a parse error), elements
parsed by `parse_deferred`. -/
def parseDeferredList (fuel : Nat) (s : List Char) (i : Nat) :
    Except PyErr (List PyVal × Nat) :=
  if startsWithAt s i "with(" then
    match parseListRun fuel ElemP.deferredE s (i + 5) true ')' [] [] true with
    | Except.error e => Except.error e
    | Except.ok (acc, _, i2) => Except.ok (acc, i2)
  else Except.ok ([], i)

/-- `parse_rule` — `RuleParser._parse` (rules/parser.py lines 384-396):
skip leading whitespace, consume the optional `with(...)` list, parse the
tree, `collapse()` it, and (after eating trailing whitespace) return it.
The `madlibs.parser.Parser` wrapper around `_parse` is external plumbing and
is embedded as the direct call sequence. -/
def parseRuleImpl (input : String) : Except PyErr PTree :=
  let s := input.toList
  let fuel := s.length * 4 + 100
  let i0 := skipWs s 0
  match parseDeferredList fuel s i0 with
  | Except.error e => Except.error e
  | Except.ok (deferred, i1) =>
    match parseTreeLoop fuel s i1 Conn.AND [] Conn.AND false (-1) deferred with
    | Except.error e => Except.error e
    | Except.ok ((conn, children), _) =>
      ptreeCollapse (PTree.node conn children)

/-- The leaf `parse_condition` builds for the numeral `k` followed by
`bool`: a `Condition` whose left is the const Selector over `k` (the plain
parsed value wrapped by `Selector(('const', left), ())`), operator `bool`,
not negated, with the empty right and value defaults. -/
def c4leaf (k : Int) : PTree :=
  PTree.leafC
    { left := PyVal.sel (PyVal.plist [PyVal.str "const", PyVal.int k])
        (PyVal.plist []) (FirstKind.constVal (PyVal.int k)),
      right := PyVal.str "", operator := "bool", negated := false,
      value := PyVal.str "" }

/-! ## The formatter (rules/formatter.py)

`format_rule` walks a tree building a `deferred` accumulator — a Python
list whose FIRST element is the list of with-list strings and whose
remaining elements are the deferred objects already assigned a backreference
index.  The embedding carries the two parts in `FmtState`; the Python list
itself is `FmtSlot.strs withStrs :: objs.map FmtSlot.obj`.

The formatter belongs to a newer revision than the `Selector`/`Condition`
classes in src: `_format_sel` reads `obj.arg` (absent from the Selector's
`__slots__`) for model/const stypes, and `_format_cond` reads
`obj.is_unary` (absent from Condition) — both surface as the
`AttributeError` Python raises.  Neither is reached when formatting a tree
with no condition leaves. -/

structure FmtState where
  withStrs : List String
  objs : List PyVal

inductive FmtSlot where
  | strs (xs : List String)
  | obj (v : PyVal)

/-- The Python `deferred` list `[[...strings...], obj, obj, ...]`. -/
def FmtState.pyList (st : FmtState) : List FmtSlot :=
  FmtSlot.strs st.withStrs :: st.objs.map FmtSlot.obj

def joinSep (sep : String) : List String → String
  | [] => ""
  | [x] => x
  | x :: xs => x ++ sep ++ joinSep sep xs

/-- `json.encoder.encode_basestring_ascii` restricted to the escapes the
inputs use (backslash, quote, and the common control characters; non-ASCII
`\uXXXX` encoding is not exercised). -/
def encodeBasestring (s : String) : String :=
  "\"" ++ String.join (s.toList.map (fun c =>
    if c == '"' then "\\\""
    else if c == '\\' then "\\\\"
    else if c == '\n' then "\\n"
    else if c == '\t' then "\\t"
    else if c == '\r' then "\\r"
    else if c == Char.ofNat 8 then "\\b"
    else if c == Char.ofNat 12 then "\\f"
    else String.mk [c])) ++ "\""

/-- `str(getter)` for chain accessors (ints and strings). -/
def strOfAccessor : PyVal → String
  | PyVal.int n => toString n
  | PyVal.str s => s
  | _ => "?"

mutual

/-- `_format(obj, deferred)` (rules/formatter.py lines 85-104) for values:
None/True/False literals, `str()` for numbers (a float keeps its literal
text), JSON strings, dicts (a `DeferredDict` IS a dict and formats inline),
lists/tuples (likewise `DeferredList`), then remaining `DeferredValue`s
(Selector/Function) through the backreference machinery; anything else is
`ValueError('Unknown object type')`.  Condition/ConditionNode dispatch lives
in `formatCond`/`formatTree` below (they are distinct Lean types). -/
def formatVal (fuel : Nat) (v : PyVal) (st : FmtState) :
    Except PyErr (String × FmtState) :=
  match fuel with
  | 0 => Except.error (PyErr.externalCall "recursion limit")
  | Nat.succ fuel =>
    match v with
    | PyVal.none => Except.ok ("null", st)
    | PyVal.bool true => Except.ok ("true", st)
    | PyVal.bool false => Except.ok ("false", st)
    | PyVal.int n => Except.ok (toString n, st)
    | PyVal.floatLit s => Except.ok (s, st)
    | PyVal.str s => Except.ok (encodeBasestring s, st)
    | PyVal.pdict xs => formatPairs fuel xs st
    | PyVal.ddict xs => formatPairs fuel xs st
    | PyVal.plist xs =>
      match formatElems fuel xs st with
      | Except.ok (parts, st') => Except.ok ("[" ++ joinSep "," parts ++ "]", st')
      | Except.error e => Except.error e
    | PyVal.dlist xs =>
      match formatElems fuel xs st with
      | Except.ok (parts, st') => Except.ok ("[" ++ joinSep "," parts ++ "]", st')
      | Except.error e => Except.error e
    | PyVal.sel _ _ _ => formatDeferred fuel v st
    | PyVal.func _ _ => formatDeferred fuel v st
    | _ => Except.error (PyErr.valueError "Unknown object type")
termination_by structural fuel

/-- `_format_dict` (lines 10-13). -/
def formatPairs (fuel : Nat) (xs : List (String × PyVal)) (st : FmtState) :
    Except PyErr (String × FmtState) :=
  match fuel with
  | 0 => Except.error (PyErr.externalCall "recursion limit")
  | Nat.succ fuel =>
    match formatPairList fuel xs st with
    | Except.ok (parts, st') =>
      Except.ok ("\x7b" ++ joinSep "," parts ++ "\x7d", st')
    | Except.error e => Except.error e
termination_by structural fuel

def formatPairList (fuel : Nat) (xs : List (String × PyVal)) (st : FmtState) :
    Except PyErr (List String × FmtState) :=
  match fuel with
  | 0 => Except.error (PyErr.externalCall "recursion limit")
  | Nat.succ fuel =>
    match xs with
    | [] => Except.ok ([], st)
    | (k, v) :: rest =>
      match formatVal fuel v st with
      | Except.error e => Except.error e
      | Except.ok (vs, st') =>
        match formatPairList fuel rest st' with
        | Except.error e => Except.error e
        | Except.ok (parts, st'') =>
          Except.ok ((encodeBasestring k ++ ":" ++ vs) :: parts, st'')
termination_by structural fuel

def formatElems (fuel : Nat) (xs : List PyVal) (st : FmtState) :
    Except PyErr (List String × FmtState) :=
  match fuel with
  | 0 => Except.error (PyErr.externalCall "recursion limit")
  | Nat.succ fuel =>
    match xs with
    | [] => Except.ok ([], st)
    | v :: rest =>
      match formatVal fuel v st with
      | Except.error e => Except.error e
      | Except.ok (vs, st') =>
        match formatElems fuel rest st' with
        | Except.error e => Except.error e
        | Except.ok (parts, st'') => Except.ok (vs :: parts, st'')
termination_by structural fuel

/-- `_format_sel` (rules/formatter.py lines 20-39): `object:N` for an int
stype, a nested backreference for a deferred stype, `extra` for the extra
sentinel; the `model`/`const` string branches read `obj.arg`, which the
Selector in src does not store — `AttributeError` (a TUPLE stype such as
`('const', v)` is not equal to any of the compared strings and also reaches
the `obj.arg` read).  A truthy chain is rendered `.a;.b:arg;`. -/
def formatSel (fuel : Nat) (stype chain : PyVal) (st : FmtState) :
    Except PyErr (String × FmtState) :=
  match fuel with
  | 0 => Except.error (PyErr.externalCall "recursion limit")
  | Nat.succ fuel =>
    match
      (match stype with
       | PyVal.int n => Except.ok ("object:" ++ toString n, st)
       | PyVal.bool b =>
         Except.ok ("object:" ++ toString (if b then 1 else 0), st)
       | PyVal.sel _ _ _ => formatDeferred fuel stype st
       | PyVal.func _ _ => formatDeferred fuel stype st
       | PyVal.dlist _ => formatDeferred fuel stype st
       | PyVal.ddict _ => formatDeferred fuel stype st
       | PyVal.str s =>
         if s == "model" then Except.error (PyErr.attributeError "arg")
         else if s != "extra" then Except.error (PyErr.attributeError "arg")
         else Except.ok ("extra", st)
       | _ => Except.error (PyErr.attributeError "arg")) with
    | Except.error e => Except.error e
    | Except.ok (stypeStr, st1) =>
      if pyTruthy chain then
        match formatChainItems fuel (listElems chain) st1 with
        | Except.error e => Except.error e
        | Except.ok (parts, st2) =>
          Except.ok (stypeStr ++ "." ++ joinSep ";." parts ++ ";", st2)
      else Except.ok (stypeStr, st1)
termination_by structural fuel

/-- The chain loop of `_format_sel`: pair accessors render
`name:<formatted arg>` (a wrong-arity pair is Python's unpack
`ValueError`). -/
def formatChainItems (fuel : Nat) (items : List PyVal) (st : FmtState) :
    Except PyErr (List String × FmtState) :=
  match fuel with
  | 0 => Except.error (PyErr.externalCall "recursion limit")
  | Nat.succ fuel =>
    match items with
    | [] => Except.ok ([], st)
    | getter :: rest =>
      match
        (if isListOrTuple getter then
          match listElems getter with
          | [g, a] =>
            match formatVal fuel a st with
            | Except.error e => Except.error e
            | Except.ok (as_, st') =>
              Except.ok (strOfAccessor g ++ ":" ++ as_, st')
          | _ => Except.error (PyErr.valueError "unpacking an accessor pair")
        else Except.ok (strOfAccessor getter, st)) with
      | Except.error e => Except.error e
      | Except.ok (part, st1) =>
        match formatChainItems fuel rest st1 with
        | Except.error e => Except.error e
        | Except.ok (parts, st2) => Except.ok (part :: parts, st2)
termination_by structural fuel

/-- `_format_func` (lines 42-44). -/
def formatFunc (fuel : Nat) (name : String) (args : PyVal) (st : FmtState) :
    Except PyErr (String × FmtState) :=
  match fuel with
  | 0 => Except.error (PyErr.externalCall "recursion limit")
  | Nat.succ fuel =>
    match formatElems fuel (listElems args) st with
    | Except.error e => Except.error e
    | Except.ok (parts, st') =>
      Except.ok (name ++ "(" ++ joinSep "," parts ++ ")", st')
termination_by structural fuel

/-- `_format_deferred` (rules/formatter.py lines 47-60): look the object up
in the accumulator (list `index` uses `==`; the leading string-list slot
never equals a deferred object, hence the `- 1`); on a miss render it, give
it the next with-list index (taken AFTER any nested appends), append, and
emit `\N`.  A non-Selector/Function object is
`ValueError('Unknown deferred type')`. -/
def formatDeferred (fuel : Nat) (v : PyVal) (st : FmtState) :
    Except PyErr (String × FmtState) :=
  match fuel with
  | 0 => Except.error (PyErr.externalCall "recursion limit")
  | Nat.succ fuel =>
    match st.objs.findIdx? (fun o => pyValBeq o v) with
    | Option.some k => Except.ok ("\\" ++ toString k, st)
    | Option.none =>
      match
        (match v with
         | PyVal.sel stype chain _ => formatSel fuel stype chain st
         | PyVal.func name args => formatFunc fuel name args st
         | _ => Except.error (PyErr.valueError "Unknown deferred type")) with
      | Except.error e => Except.error e
      | Except.ok (rendered, st1) =>
        let idx := st1.withStrs.length
        Except.ok ("\\" ++ toString idx,
          { withStrs := st1.withStrs ++ [rendered], objs := st1.objs ++ [v] })
termination_by structural fuel

/-- `_format_term` (lines 63-66): a term whose `stype` attribute equals the
string `'const'` (only a bare-string const Selector) formats its `arg`
inline — `AttributeError`, src's Selector stores no `arg`; every other term
goes through `_format_deferred`. -/
def formatTerm (fuel : Nat) (v : PyVal) (st : FmtState) :
    Except PyErr (String × FmtState) :=
  match fuel with
  | 0 => Except.error (PyErr.externalCall "recursion limit")
  | Nat.succ fuel =>
    match v with
    | PyVal.sel (PyVal.str "const") _ _ => Except.error (PyErr.attributeError "arg")
    | _ => formatDeferred fuel v st

/-- `_format_cond` (rules/formatter.py lines 69-75): the left term is
formatted first (mutating the accumulator), then `obj.is_unary` is read —
an attribute the Condition revision in src does not define, so every
condition leaf raises `AttributeError` after its left term has been
recorded. -/
def formatCond (fuel : Nat) (c : Condition) (st : FmtState) :
    Except PyErr (String × FmtState) :=
  match fuel with
  | 0 => Except.error (PyErr.externalCall "recursion limit")
  | Nat.succ fuel =>
    match formatTerm fuel c.left st with
    | Except.error e => Except.error e
    | Except.ok (_, _) => Except.error (PyErr.attributeError "is_unary")

/-- `_format_tree` (lines 78-80). -/
def formatTree (fuel : Nat) (t : PTree) (st : FmtState) :
    Except PyErr (String × FmtState) :=
  match fuel with
  | 0 => Except.error (PyErr.externalCall "recursion limit")
  | Nat.succ fuel =>
    match t with
    | PTree.leafC c => formatCond fuel c st
    | PTree.node conn cs =>
      match formatTreeChildren fuel cs st with
      | Except.error e => Except.error e
      | Except.ok (parts, st') =>
        let sep := match conn with
          | Conn.AND => " AND "
          | Conn.OR => " OR "
        Except.ok ("(" ++ joinSep sep parts ++ ")", st')
termination_by structural fuel

def formatTreeChildren (fuel : Nat) (cs : List PTree) (st : FmtState) :
    Except PyErr (List String × FmtState) :=
  match fuel with
  | 0 => Except.error (PyErr.externalCall "recursion limit")
  | Nat.succ fuel =>
    match cs with
    | [] => Except.ok ([], st)
    | t :: rest =>
      match formatTree fuel t st with
      | Except.error e => Except.error e
      | Except.ok (ts, st') =>
        match formatTreeChildren fuel rest st' with
        | Except.error e => Except.error e
        | Except.ok (parts, st'') => Except.ok (ts :: parts, st'')
termination_by structural fuel

end

/-- `format_rule(obj)` (rules/formatter.py lines 107-112):

    deferred = [[]]
    string = _format_tree(obj, deferred)
    if deferred:
        string = 'with(' + ','.join(deferred[0]) + ') ' + string
    return string

The truthiness test is on `deferred` itself — the outer accumulator list,
which always holds at least the with-list cell — NOT on the with-list
`deferred[0]`; the embedded test is on `FmtState.pyList`, which is
`isEmpty = false` by construction. -/
def formatRule (t : PTree) : Except PyErr String :=
  let st0 : FmtState := { withStrs := [], objs := [] }
  match formatTree 1000 t st0 with
  | Except.error e => Except.error e
  | Except.ok (s, st) =>
    if !(st.pyList).isEmpty then
      Except.ok ("with(" ++ joinSep "," st.withStrs ++ ") " ++ s)
    else Except.ok s

/-! # Theorems -/

theorem memoLookup_store {α : Type} (info : List (Nat × α)) (k : Nat) (v : α) :
    memoLookup (memoStore info k v) k = Option.some v := by
  induction info with
  | nil => simp [memoStore, memoLookup]
  | cons hd tl ih =>
    obtain ⟨k', v'⟩ := hd
    by_cases h : k' = k
    · simp [memoStore, h, memoLookup]
    · simp [memoStore, h, memoLookup, ih]

/-- C1: the claim says `ConditionNode` evaluation returns `all` of the
children under AND and `any` under OR (vacuously true resp. false on zero
children) and raises no exception.  The code instead raises
`NameError: name 'children' is not defined` for every node and every input,
because line 27 of rules/core.py iterates the bare name `children` instead of
`self.children`.  This theorem evaluates the embedded method: every node —
in particular the empty AND node, which the claim says evaluates to true —
produces the `NameError` rather than a boolean. -/
theorem C1_evaluate_always_raises_nameError (t : TreeNode) :
    ConditionNode.evaluateImpl t = Except.error (PyErr.nameError "children") := by
  simp [ConditionNode.evaluateImpl, resolvesInCore, evaluateLocalNames,
    coreModuleGlobals]

/-- C2 counterexample: take T = AND(a, b) with leaf a evaluating true and
leaf b evaluating false — the concrete instance named by the claim.  The
claim says `negate()` turns T into a node whose connector is the dual (OR)
with one child keeping the original connector (AND), raising nothing.  The
code instead (i) raises `NameError: name 'default' is not defined` at
`self.connector = default` (rules/core.py line 35), and (ii) leaves the
node's own connector AND while giving the dual connector OR to the new
single child that wraps the negated children — the opposite assignment of
connectors from the claim.  Hence also `negate(T).evaluate()` cannot equal
`not T.evaluate()`: `negate` does not return normally (and evaluation itself
raises, see C1). -/
theorem C2_negate_counterexample :
    (ConditionNode.negateImpl
        (TreeNode.node Conn.AND [TreeNode.leaf true, TreeNode.leaf false])).2 =
      Except.error (PyErr.nameError "default") ∧
    (ConditionNode.negateImpl
        (TreeNode.node Conn.AND [TreeNode.leaf true, TreeNode.leaf false])).1 =
      TreeNode.node Conn.AND
        [TreeNode.node Conn.OR [TreeNode.leaf false, TreeNode.leaf true]] :=
  ⟨rfl, rfl⟩

/-- C2 amended: calling `negate()` on a two-leaf node negates each child in
place and wraps the negated children in one new single child node carrying
the DUAL of the original connector; the final assignment of the node's own
connector to the class default references the bare name `default` and raises
`NameError`, leaving the node's own connector unchanged.  The tree as left by
the mutation nevertheless satisfies De Morgan under the intended all/any
evaluation semantics: it evaluates to the boolean negation of the original
tree (for T = AND(a, b) with a true and b false: true = not false). -/
theorem C2_negate_amended (a b : Bool) (conn : Conn) :
    ConditionNode.negateImpl (TreeNode.node conn [TreeNode.leaf a, TreeNode.leaf b]) =
      (TreeNode.node conn
          [TreeNode.node (Conn.dualOf conn) [TreeNode.leaf (!a), TreeNode.leaf (!b)]],
        Except.error (PyErr.nameError "default")) ∧
    evalIntended
        (ConditionNode.negateImpl
          (TreeNode.node conn [TreeNode.leaf a, TreeNode.leaf b])).1 =
      !(evalIntended (TreeNode.node conn [TreeNode.leaf a, TreeNode.leaf b])) := by
  cases conn <;> cases a <;> cases b <;> exact ⟨rfl, rfl⟩

/-- C7: `DeferredValue.get_value` memoizes per (node, context) pair: if a
call on context `info` returns value `v` (leaving context `info'`), then a
second call on that same context returns the stored `v`, and the context
maps the node's identity to `v` — the second call takes the cache-hit branch
of rules/deferred.py lines 36-37 and never re-invokes `_get_value`. -/
theorem C7_get_value_memoized {α : Type} (d : DeferredNode α)
    (info info' : List (Nat × α)) (v : α)
    (h : d.getValue info = Except.ok (v, info')) :
    d.getValue info' = Except.ok (v, info') ∧
      memoLookup info' d.ident = Option.some v := by
  unfold DeferredNode.getValue at h
  cases hm : memoLookup info d.ident with
  | some w =>
    rw [hm] at h
    simp only [Except.ok.injEq, Prod.mk.injEq] at h
    obtain ⟨rfl, rfl⟩ := h
    constructor
    · unfold DeferredNode.getValue
      rw [hm]
    · exact hm
  | none =>
    rw [hm] at h
    cases hr : d.rawGetValue info with
    | error e => rw [hr] at h; exact absurd h (by simp)
    | ok p =>
      obtain ⟨w, info2⟩ := p
      rw [hr] at h
      simp only [Except.ok.injEq, Prod.mk.injEq] at h
      obtain ⟨rfl, rfl⟩ := h
      refine ⟨?_, memoLookup_store info2 d.ident w⟩
      unfold DeferredNode.getValue
      rw [memoLookup_store]

/-- C7 witness: the sample node's first call on the empty context computes 42
and stores it under its identity; applying `C7_get_value_memoized` to that
run shows the second call returns the memo. -/
theorem C7_get_value_memoized_witness :
    sampleDeferredNode.getValue ([] : List (Nat × Nat)) =
        Except.ok (42, [(0, 42)]) ∧
      (sampleDeferredNode.getValue [(0, 42)] = Except.ok (42, [(0, 42)]) ∧
        memoLookup [(0, 42)] sampleDeferredNode.ident = Option.some 42) :=
  ⟨rfl, C7_get_value_memoized sampleDeferredNode [] [(0, 42)] 42 rfl⟩

/-- C3: the claim says Condition evaluation never propagates an exception —
anything raised while resolving an operand or comparing is caught and the
leaf yields false.  `Condition._evaluate` (rules/core.py lines 237-242)
contains no exception handling at all: here the binary condition
`Condition(left='0', operator='==', right='1')`, evaluated with a single
object `5` and empty extra, raises `IndexError` while resolving the right
operand (`objects[1]`), and the error escapes `evaluate` instead of
producing `False`.  The repository's test suite
(`test_core.TestConditionMethods.test_eval_error`) asserts the absorbing
behaviour the claim describes, so the missing handler is a slip of this
revision. -/
theorem C3_condition_evaluate_propagates_indexError :
    (Condition.init
        { left := Option.some (PyVal.str "0"),
          right := Option.some (PyVal.str "1"),
          operator := Option.some "==" }).bind
      (fun c => Condition.evaluateImpl c [PyVal.int 5] (PyVal.pdict [])) =
      Except.error PyErr.indexError := rfl

/-- C8: constructing a Condition with a negated operator token normalizes it
at construction time to the positive operator plus the negated flag:
`!=` is stored as `==`, `not in` as `in`, `>` as `<=`, `>=` as `<`,
`does not exist` as `bool`, and `not like` as `re` (whose right-hand side is
compiled as a regex), each with `negated = true` when no explicit `negated`
argument is given. -/
theorem C8_negated_operator_normalization :
    Condition.init
        { left := Option.some (PyVal.str "0"),
          right := Option.some (PyVal.str "1"),
          operator := Option.some "!=" } =
      Except.ok
        { left := PyVal.str "0", right := PyVal.str "1", operator := "==",
          negated := true, value := PyVal.str "" } ∧
    Condition.init
        { left := Option.some (PyVal.str "0"),
          right := Option.some (PyVal.str "1"),
          operator := Option.some "not in" } =
      Except.ok
        { left := PyVal.str "0", right := PyVal.str "1", operator := "in",
          negated := true, value := PyVal.str "" } ∧
    Condition.init
        { left := Option.some (PyVal.str "0"),
          right := Option.some (PyVal.str "1"),
          operator := Option.some ">" } =
      Except.ok
        { left := PyVal.str "0", right := PyVal.str "1", operator := "<=",
          negated := true, value := PyVal.str "" } ∧
    Condition.init
        { left := Option.some (PyVal.str "0"),
          right := Option.some (PyVal.str "1"),
          operator := Option.some ">=" } =
      Except.ok
        { left := PyVal.str "0", right := PyVal.str "1", operator := "<",
          negated := true, value := PyVal.str "" } ∧
    Condition.init
        { left := Option.some (PyVal.str "0"),
          operator := Option.some "does not exist" } =
      Except.ok
        { left := PyVal.str "0", right := PyVal.str "", operator := "bool",
          negated := true, value := PyVal.str "" } ∧
    Condition.init
        { left := Option.some (PyVal.str "0"),
          right := Option.some (PyVal.str "1"),
          operator := Option.some "not like" } =
      Except.ok
        { left := PyVal.str "0", right := PyVal.regex "1", operator := "re",
          negated := true, value := PyVal.str "" } :=
  ⟨rfl, rfl, rfl, rfl, rfl, rfl⟩

/-- C9: the claim says the strict tree-from-storage builder raises an error
when two records sharing a parent declare different connectors with no
explicit grouping record between them.  `ConditionTree` (rules/core.py lines
261-282) calls the inherited, NON-validating `django.utils.tree.Node.add` —
not the validating `_add` whose docstring says it exists precisely "for
constructing a condition tree from a data source" — so mixed connectors are
accepted silently: with two sibling records (AND then OR) the root's
connector simply flips to OR; with three (AND, AND, OR) the two AND records
are silently demoted into a fresh sub-node.  No error is raised in either
case. -/
theorem C9_condition_tree_mixed_connectors_no_error :
    ConditionTreeImpl
        [{ pk := 1, parent := Option.none, connector := Conn.AND, rule := 7 },
         { pk := 2, parent := Option.none, connector := Conn.OR, rule := 7 }] =
      Except.ok
        ({ next := 1,
           data := [(0,
             { connector := Conn.OR,
               children :=
                 [StoreChild.record
                    { pk := 1, parent := Option.none, connector := Conn.AND,
                      rule := 7 },
                  StoreChild.record
                    { pk := 2, parent := Option.none, connector := Conn.OR,
                      rule := 7 }] })] }, 0) ∧
    ConditionTreeImpl
        [{ pk := 1, parent := Option.none, connector := Conn.AND, rule := 7 },
         { pk := 2, parent := Option.none, connector := Conn.AND, rule := 7 },
         { pk := 3, parent := Option.none, connector := Conn.OR, rule := 7 }] =
      Except.ok
        ({ next := 2,
           data := [(0,
             { connector := Conn.OR,
               children :=
                 [StoreChild.ref 1,
                  StoreChild.record
                    { pk := 3, parent := Option.none, connector := Conn.OR,
                      rule := 7 }] }),
            (1,
             { connector := Conn.AND,
               children :=
                 [StoreChild.record
                    { pk := 1, parent := Option.none, connector := Conn.AND,
                      rule := 7 },
                  StoreChild.record
                    { pk := 2, parent := Option.none, connector := Conn.AND,
                      rule := 7 }] })] }, 0) :=
  ⟨rfl, rfl⟩

set_option maxHeartbeats 4000000 in
set_option maxRecDepth 4000 in
/-- C4: parsing `"0 bool AND 1 bool OR 2 bool AND 3 bool"` succeeds and
yields the left-associative grouping `((0 AND 1) OR 2) AND 3`: a top-level
AND node whose first child is an OR node containing an AND node over the
leaves 0 and 1 plus the leaf 2, and whose second child is the leaf 3 — not
AND-over-OR precedence.  Each numeral becomes a const Selector leaf with the
unary `bool` operator; the chaining comes from `django.utils.tree.Node.add`
(a mismatched connector on a two-child node demotes the existing children
into a sub-node), and the final `collapse()` of `RuleParser._parse` leaves
this tree unchanged.  `Condition.is_unary`, consulted on the way, is
modelled from the spec (see its definition). -/
theorem C4_connector_chaining_left_associative :
    parseRuleImpl "0 bool AND 1 bool OR 2 bool AND 3 bool" =
      Except.ok
        (PTree.node Conn.AND
          [PTree.node Conn.OR
            [PTree.node Conn.AND [c4leaf 0, c4leaf 1], c4leaf 2],
           c4leaf 3]) := rfl

/-- C5: the claim says `format_rule` emits the `with(...)` prefix exactly
when deferred sub-expressions were collected, and just `<tree>` otherwise.
The code tests `if deferred:` where `deferred = [[]]` — the accumulator
list, which always contains the with-list cell and is therefore always
truthy — instead of the with-list `deferred[0]`.  A tree with no deferred
content (an empty node, or nested empty nodes) is thus rendered
`'with() ()'`, not `'()'`.  The output cannot even be re-parsed: the
grammar's withlist requires at least one element, and the repository's own
test asserts `parse_rule('with() ()')` raises `ValueError`
(test_parser.TestParseRule.test_deferred_list). -/
theorem C5_format_rule_always_prefixes_with :
    formatRule (PTree.node Conn.AND []) = Except.ok "with() ()" ∧
    formatRule (PTree.node Conn.AND [PTree.node Conn.OR []]) =
      Except.ok "with() (())" :=
  ⟨rfl, rfl⟩

/-- C6: the claim says a Selector over `extra` with chain `('one',)` returns
1 against a context whose extra is `{'one': 1}`, and raises ChainError
against an empty extra.  On the code, BOTH contexts produce a `ChainError` —
one wrapping `NameError: name 'chain' is not defined` — because the accessor
loop of `Selector._get_value` (rules/deferred.py line 134) iterates the
unbound name `chain` instead of `self.chain`; the successfully resolved
`{'one': 1}` root never reaches the lookup of `'one'`.  The repository's own
test `test_get_value_from_dict` asserts the claimed value 1, so this is a
slip in the code. -/
theorem C6_extra_selector_get_value :
    (Selector.init (PyVal.str "extra") (PyVal.plist [PyVal.str "one"])).bind
        (fun s =>
          Selector.getValue s Option.none
            (Option.some (PyVal.pdict [("one", PyVal.int 1)]))) =
      Except.error (PyErr.chainError (PyErr.nameError "chain")) ∧
    (Selector.init (PyVal.str "extra") (PyVal.plist [PyVal.str "one"])).bind
        (fun s =>
          Selector.getValue s Option.none (Option.some (PyVal.pdict []))) =
      Except.error (PyErr.chainError (PyErr.nameError "chain")) :=
  ⟨rfl, rfl⟩

/-- C10: constructing a Selector whose root kind is `const` together with a
non-empty accessor chain raises `ValueError` at construction time (both for
the tuple form `('const', v)` and the bare string form), and every
successfully constructed const-root Selector has an empty chain. -/
theorem C10_const_selector_rejects_chain (v x : PyVal) (xs : List PyVal) :
    Selector.init (PyVal.plist [PyVal.str "const", v])
        (PyVal.plist (x :: xs)) =
      Except.error
        (PyErr.valueError "Chains are not allowed on const selectors") ∧
    Selector.init (PyVal.str "const") (PyVal.plist (x :: xs)) =
      Except.error
        (PyErr.valueError "Chains are not allowed on const selectors") ∧
    ∀ (chain : List PyVal) (s : PyVal),
      Selector.init (PyVal.plist [PyVal.str "const", v])
          (PyVal.plist chain) = Except.ok s →
        selChainOf s = PyVal.plist [] := by
  refine ⟨rfl, rfl, ?_⟩
  intro chain s h
  cases chain with
  | nil =>
    rw [show Selector.init (PyVal.plist [PyVal.str "const", v])
          (PyVal.plist []) =
        Except.ok (PyVal.sel (PyVal.plist [PyVal.str "const", v])
          (PyVal.plist []) (FirstKind.constVal v)) from rfl] at h
    cases h
    rfl
  | cons y ys =>
    rw [show Selector.init (PyVal.plist [PyVal.str "const", v])
          (PyVal.plist (y :: ys)) =
        Except.error
          (PyErr.valueError "Chains are not allowed on const selectors")
        from rfl] at h
    simp at h

/-- C10 witness: `Selector(('const', 5), ('a',))` raises `ValueError`, and
the successfully constructed `Selector(('const', 5), ())` has the empty
chain. -/
theorem C10_const_selector_rejects_chain_witness :
    Selector.init (PyVal.plist [PyVal.str "const", PyVal.int 5])
        (PyVal.plist [PyVal.str "a"]) =
      Except.error
        (PyErr.valueError "Chains are not allowed on const selectors") ∧
    selChainOf (PyVal.sel (PyVal.plist [PyVal.str "const", PyVal.int 5])
        (PyVal.plist []) (FirstKind.constVal (PyVal.int 5))) =
      PyVal.plist [] :=
  ⟨(C10_const_selector_rejects_chain (PyVal.int 5) (PyVal.str "a") []).1,
   (C10_const_selector_rejects_chain (PyVal.int 5) (PyVal.str "a")
      []).2.2 [] _ rfl⟩

end RuleReactor
